import Mathlib

/-!
# SceneManager: a shallow embedding of `3D-Scene/Source/SceneManager.cpp`

The scene manager talks to three external collaborators: the image decoder
(stb_image), the graphics API (OpenGL) and the shader manager.  None of them is
part of the repository, so every call the source makes to one of them is
recorded, in program order, in one trace of `Call` values.  What a collaborator
hands back (the decoded image, the texture name produced by `glGenTextures`)
is an argument of the embedded function.

Scalars are `float` in the source.  The embedding is generic in the type `R`
of scalars and does no arithmetic on them.  The matrices of
`SetTransformations` are computed inside glm, in 32-bit floating point: the
glm functions the method calls are taken as parameters (`FloatOps`), with no
law assumed, so the method itself fixes which functions are called on which
arguments and in which order.  For statements about the values glm returns,
`F32` models binary32 arithmetic (every operation rounds its exact result to
the nearest `float`, ties to even) and `glmOps` the glm functions on it.  The
scene content (materials, lights, the render methods) is written over `ℚ`,
each decimal literal of the source standing for the rational it denotes.
-/

namespace SceneManager

/-! ## The glm value types -/

/-- The type `glm::vec2`. -/
structure vec2 (R : Type) where
  x : R
  y : R
deriving DecidableEq, Repr

/-- The type `glm::vec3`. -/
structure vec3 (R : Type) where
  x : R
  y : R
  z : R
deriving DecidableEq, Repr

/-- The type `glm::vec4`. -/
structure vec4 (R : Type) where
  x : R
  y : R
  z : R
  w : R
deriving DecidableEq, Repr

/-- The type `glm::mat4`, stored column-major as glm does: `c0 .. c3` are the
four columns `m[0] .. m[3]`. -/
structure mat4 (R : Type) where
  c0 : vec4 R
  c1 : vec4 R
  c2 : vec4 R
  c3 : vec4 R
deriving DecidableEq, Repr

/-- The glm functions that `SetTransformations` calls: `glm::radians`,
`glm::scale`, `glm::rotate`, `glm::translate` and `operator*` on `glm::mat4`.
They belong to the glm library, which is not part of the repository, and
compute in 32-bit floating point; they are parameters of the embedding and no
law is assumed of them. -/
structure FloatOps (R : Type) where
  radians : R → R
  scale : vec3 R → mat4 R
  rotate : R → vec3 R → mat4 R
  translate : vec3 R → mat4 R
  mul : mat4 R → mat4 R → mat4 R

/-! ## 32-bit floating point -/

/-- A finite `float` (IEEE-754 binary32).  Every finite binary32 value is an
integer multiple of 2^-149, the smallest subnormal: `units` is that integer,
so the value is `units * 2^-149`.  Infinities, NaN and the sign of zero are
not represented. -/
structure F32 where
  units : Int
deriving DecidableEq, Repr

/-- The rational number a `float` denotes. -/
def F32.toRat (a : F32) : ℚ := (a.units : ℚ) / 2 ^ 149

/-- The `float` with value `m * 2^-e`, for `e` up to 149. -/
def F32.dyadic (m : Int) (e : Nat) : F32 := ⟨m * ((2 ^ (149 - e) : Nat) : Int)⟩

/-- The `float` with the value of a natural number below 2^24. -/
def F32.ofNat (n : Nat) : F32 := F32.dyadic n 0

instance F32.instZero : Zero F32 := ⟨F32.ofNat 0⟩

instance F32.instOne : One F32 := ⟨F32.ofNat 1⟩

/-- The number of binary digits of `n`, counted by halving. -/
def bitLength.go : Nat → Nat → Nat
  | 0, _ => 0
  | fuel + 1, n => if n = 0 then 0 else bitLength.go fuel (n / 2) + 1

/-- The number of binary digits of a natural number (0 for 0). -/
def bitLength (n : Nat) : Nat := bitLength.go n n

/-- Rounding to nearest, ties to even, which binary32 arithmetic applies to
the exact result of every operation.  The exact result is `num / den`, counted
in units of 2^-149; the value returned is the nearest `float`, in the same
units.  A `float` keeps 24 significant binary digits and is never finer than
one unit, so the `drop` lowest digits of the integer part are rounded away.
Overflow to infinity is not modelled. -/
def roundNearestEven (num : Int) (den : Nat) : Int :=
  let a := num.natAbs
  let drop := bitLength (a / den) - 24
  let d := den * 2 ^ drop
  let q := a / d
  let r := a % d
  let n := if 2 * r < d then q else if d < 2 * r then q + 1 else if q % 2 = 0 then q else q + 1
  if num < 0 then -((n * 2 ^ drop : Nat) : Int) else ((n * 2 ^ drop : Nat) : Int)

/-- The sum of two `float`s. -/
def F32.add (a b : F32) : F32 := ⟨roundNearestEven (a.units + b.units) 1⟩

/-- The difference of two `float`s. -/
def F32.sub (a b : F32) : F32 := ⟨roundNearestEven (a.units - b.units) 1⟩

/-- The product of two `float`s: the exact product counts `units * units` in
units of 2^-298. -/
def F32.mul (a b : F32) : F32 := ⟨roundNearestEven (a.units * b.units) (2 ^ 149)⟩

instance F32.instAdd : Add F32 := ⟨F32.add⟩

instance F32.instSub : Sub F32 := ⟨F32.sub⟩

instance F32.instMul : Mul F32 := ⟨F32.mul⟩

/-! ## glm in 32-bit floating point

The functions of glm 0.9.9 that `SetTransformations` calls
(`glm/gtx/transform.hpp`, `glm/ext/matrix_transform.inl`,
`glm/detail/type_mat4x4.inl`), operation by operation. -/

/-- The functions glm takes from the C++ math library: `cos` and `sin`, which
`glm::rotate` calls, and `glm::inversesqrt` (one over `sqrt`), which
`glm::normalize` calls. -/
structure CMath where
  cos : F32 → F32
  sin : F32 → F32
  inversesqrt : F32 → F32

namespace glm

/-- A `vec4` times a scalar, component by component. -/
def smul (v : vec4 F32) (k : F32) : vec4 F32 := ⟨v.x * k, v.y * k, v.z * k, v.w * k⟩

/-- The sum of two `vec4`, component by component. -/
def add (a b : vec4 F32) : vec4 F32 := ⟨a.x + b.x, a.y + b.y, a.z + b.z, a.w + b.w⟩

/-- The matrix `glm::mat4(1.0f)`. -/
def identity : mat4 F32 := ⟨⟨1, 0, 0, 0⟩, ⟨0, 1, 0, 0⟩, ⟨0, 0, 1, 0⟩, ⟨0, 0, 0, 1⟩⟩

/-- One column of a matrix product:
`A[0] * b[0] + A[1] * b[1] + A[2] * b[2] + A[3] * b[3]`. -/
def mulCol (a : mat4 F32) (b : vec4 F32) : vec4 F32 :=
  add (add (add (smul a.c0 b.x) (smul a.c1 b.y)) (smul a.c2 b.z)) (smul a.c3 b.w)

/-- The product `operator*` of two `mat4`. -/
def mul (a b : mat4 F32) : mat4 F32 :=
  ⟨mulCol a b.c0, mulCol a b.c1, mulCol a b.c2, mulCol a b.c3⟩

/-- The function `glm::radians`: the degrees times the `float` nearest to
0.01745329251994329576923690768489, which is 9370165 * 2^-29 (bit pattern
0x3C8EFA35). -/
def radians (degrees : F32) : F32 := degrees * F32.dyadic 9370165 29

/-- The function `glm::scale(v)`, which is `scale(mat4(1.0f), v)`. -/
def scale (v : vec3 F32) : mat4 F32 :=
  let m := identity
  ⟨smul m.c0 v.x, smul m.c1 v.y, smul m.c2 v.z, m.c3⟩

/-- The function `glm::translate(v)`, which is `translate(mat4(1.0f), v)`:
the last column becomes `m[0] * v[0] + m[1] * v[1] + m[2] * v[2] + m[3]`. -/
def translate (v : vec3 F32) : mat4 F32 :=
  let m := identity
  ⟨m.c0, m.c1, m.c2, add (add (add (smul m.c0 v.x) (smul m.c1 v.y)) (smul m.c2 v.z)) m.c3⟩

/-- The function `glm::dot` on `vec3`. -/
def dot (a b : vec3 F32) : F32 := a.x * b.x + a.y * b.y + a.z * b.z

/-- The function `glm::normalize` on `vec3`: `v * inversesqrt(dot(v, v))`. -/
def normalize (L : CMath) (v : vec3 F32) : vec3 F32 :=
  let k := L.inversesqrt (dot v v)
  ⟨v.x * k, v.y * k, v.z * k⟩

/-- The body of `glm::rotate(m, angle, v)` for `m = mat4(1.0f)`, after the
cosine `c`, the sine `s` and the normalised axis have been computed. -/
def rotation (c s : F32) (axis : vec3 F32) : mat4 F32 :=
  let m := identity
  let temp : vec3 F32 := ⟨(1 - c) * axis.x, (1 - c) * axis.y, (1 - c) * axis.z⟩
  let r00 := c + temp.x * axis.x
  let r01 := temp.x * axis.y + s * axis.z
  let r02 := temp.x * axis.z - s * axis.y
  let r10 := temp.y * axis.x - s * axis.z
  let r11 := c + temp.y * axis.y
  let r12 := temp.y * axis.z + s * axis.x
  let r20 := temp.z * axis.x + s * axis.y
  let r21 := temp.z * axis.y - s * axis.x
  let r22 := c + temp.z * axis.z
  ⟨add (add (smul m.c0 r00) (smul m.c1 r01)) (smul m.c2 r02),
   add (add (smul m.c0 r10) (smul m.c1 r11)) (smul m.c2 r12),
   add (add (smul m.c0 r20) (smul m.c1 r21)) (smul m.c2 r22),
   m.c3⟩

/-- The function `glm::rotate(angle, v)`, which is
`rotate(mat4(1.0f), angle, v)`. -/
def rotate (L : CMath) (angle : F32) (v : vec3 F32) : mat4 F32 :=
  rotation (L.cos angle) (L.sin angle) (normalize L v)

end glm

/-- The glm library in 32-bit floating point, over a C++ math library. -/
def glmOps (L : CMath) : FloatOps F32 where
  radians := glm.radians
  scale := glm.scale
  rotate := glm.rotate L
  translate := glm.translate
  mul := glm.mul

/-! ## External collaborators -/

/-- OpenGL enumerant `GL_TEXTURE_2D`. -/
def GL_TEXTURE_2D : Nat := 0x0DE1
/-- OpenGL enumerant `GL_TEXTURE_WRAP_S`. -/
def GL_TEXTURE_WRAP_S : Nat := 0x2802
/-- OpenGL enumerant `GL_TEXTURE_WRAP_T`. -/
def GL_TEXTURE_WRAP_T : Nat := 0x2803
/-- OpenGL enumerant `GL_TEXTURE_MIN_FILTER`. -/
def GL_TEXTURE_MIN_FILTER : Nat := 0x2801
/-- OpenGL enumerant `GL_TEXTURE_MAG_FILTER`. -/
def GL_TEXTURE_MAG_FILTER : Nat := 0x2800
/-- OpenGL enumerant `GL_REPEAT`. -/
def GL_REPEAT : Nat := 0x2901
/-- OpenGL enumerant `GL_LINEAR`. -/
def GL_LINEAR : Nat := 0x2601
/-- OpenGL enumerant `GL_RGB`. -/
def GL_RGB : Nat := 0x1907
/-- OpenGL enumerant `GL_RGBA`. -/
def GL_RGBA : Nat := 0x1908
/-- OpenGL enumerant `GL_RGB8`. -/
def GL_RGB8 : Nat := 0x8051
/-- OpenGL enumerant `GL_RGBA8`. -/
def GL_RGBA8 : Nat := 0x8058
/-- OpenGL enumerant `GL_UNSIGNED_BYTE`. -/
def GL_UNSIGNED_BYTE : Nat := 0x1401
/-- OpenGL enumerant `GL_TEXTURE0`, the name of texture unit 0. -/
def GL_TEXTURE0 : Nat := 0x84C0

/-- OpenGL enumerant `GL_BLEND`. -/
def GL_BLEND : Nat := 0x0BE2
/-- OpenGL enumerant `GL_SRC_ALPHA`. -/
def GL_SRC_ALPHA : Nat := 0x0302
/-- OpenGL enumerant `GL_ONE_MINUS_SRC_ALPHA`. -/
def GL_ONE_MINUS_SRC_ALPHA : Nat := 0x0303

/-- The mesh kinds of the `ShapeMeshes` collaborator that the source loads or
draws. -/
inductive Mesh where
  | Box | Plane | Cylinder | Cone | Prism | Pyramid4 | Sphere | TaperedCylinder
  | Torus | HalfSphere
deriving DecidableEq, Repr

/-- What `stbi_load` reports about a decoded image (the pixels themselves play
no part in the control flow). -/
structure Image where
  width : Int
  height : Int
  colorChannels : Int
deriving DecidableEq, Repr

/-- One call from the scene manager to an external collaborator.  For
`glGenTextures` the second argument is the texture name the call wrote to its
output parameter. -/
inductive Call (R : Type) where
  | stbi_set_flip_vertically_on_load (flag : Bool)
  | stbi_load (filename : String)
  | stbi_image_free
  | glGenTextures (n : Nat) (name : Nat)
  | glBindTexture (target : Nat) (texture : Nat)
  | glTexParameteri (target : Nat) (pname : Nat) (param : Nat)
  | glTexImage2D (target : Nat) (level : Int) (internalformat : Nat)
      (width : Int) (height : Int) (border : Int) (format : Nat) (type : Nat)
  | glGenerateMipmap (target : Nat)
  | glActiveTexture (texture : Nat)
  | glDeleteTextures (n : Nat) (name : Nat)
  | setMat4Value (name : String) (value : mat4 R)
  | setIntValue (name : String) (value : Int)
  | setVec4Value (name : String) (value : vec4 R)
  | setSampler2DValue (name : String) (value : Int)
  | setVec2Value (name : String) (value : vec2 R)
  | setVec3Value (name : String) (value : vec3 R)
  | setFloatValue (name : String) (value : R)
  | setBoolValue (name : String) (value : Bool)
  | glEnable (cap : Nat)
  | glDisable (cap : Nat)
  | glBlendFunc (sfactor : Nat) (dfactor : Nat)
  | LoadMesh (mesh : Mesh)
  | DrawMesh (mesh : Mesh) (args : List Bool)
deriving DecidableEq, Repr

/-! ## The data model -/

/-- The global `g_ModelName`. -/
def g_ModelName : String := "model"
/-- The global `g_ColorValueName`. -/
def g_ColorValueName : String := "objectColor"
/-- The global `g_TextureValueName`. -/
def g_TextureValueName : String := "objectTexture"
/-- The global `g_UseTextureName`. -/
def g_UseTextureName : String := "bUseTexture"
/-- The global `g_UseLightingName`. -/
def g_UseLightingName : String := "bUseLighting"

/-- One entry of `m_textureIDs`: a tag and the OpenGL texture name (a
`GLuint`). -/
structure TEXTURE_INFO where
  tag : String
  ID : Nat
deriving DecidableEq, Repr

/-- The struct `OBJECT_MATERIAL`, with the fields the source reads and
writes. -/
structure OBJECT_MATERIAL (R : Type) where
  ambientColor : vec3 R
  ambientStrength : R
  diffuseColor : vec3 R
  specularColor : vec3 R
  shininess : R
  tag : String
deriving DecidableEq, Repr

/-- The data members of a `SceneManager` object the embedded methods use,
together with the trace of calls made so far to the external collaborators.

* `m_pShaderManager` is `true` when the pointer is not `NULL`.
* `m_textureIDs` is the fixed-size array of the class: its length is the
  declared array size and never changes.  Only the first `m_loadedTextures`
  entries are registered textures.
* `m_objectMaterials` is the `std::vector` of defined materials. -/
structure State (R : Type) where
  m_pShaderManager : Bool
  m_textureIDs : List TEXTURE_INFO
  m_loadedTextures : Nat
  m_objectMaterials : List (OBJECT_MATERIAL R)
  trace : List (Call R)
deriving DecidableEq, Repr

/-- Append calls to the trace. -/
def State.emit {R : Type} (s : State R) (cs : List (Call R)) : State R :=
  { s with trace := s.trace ++ cs }

/-- The registered textures: the first `m_loadedTextures` array entries. -/
def State.registry {R : Type} (s : State R) : List TEXTURE_INFO :=
  s.m_textureIDs.take s.m_loadedTextures

/-- The count of loaded textures does not exceed the array size. -/
def State.WellFormed {R : Type} (s : State R) : Prop :=
  s.m_loadedTextures ≤ s.m_textureIDs.length

instance {R : Type} (s : State R) : Decidable s.WellFormed :=
  inferInstanceAs (Decidable (_ ≤ _))

/-- Conversion of a `GLuint` texture name to the `int` that `FindTextureID`
returns (two's complement, 32 bits): the value itself below `2^31`. -/
def toInt32 (n : Nat) : Int :=
  if n % 2 ^ 32 < 2 ^ 31 then ((n % 2 ^ 32 : Nat) : Int)
  else ((n % 2 ^ 32 : Nat) : Int) - 2 ^ 32

/-! ## The methods -/

section methods
variable {R : Type}

/-- The method `SceneManager::SetTransformations`.  The product
`translation * rotationZ * rotationY * rotationX * scale` associates to the
left, as `operator*` does in C++. -/
def SetTransformations [Zero R] [One R] (F : FloatOps R) (scaleXYZ : vec3 R)
    (XrotationDegrees YrotationDegrees ZrotationDegrees : R)
    (positionXYZ : vec3 R) (s : State R) : State R :=
  let scale := F.scale scaleXYZ
  let rotationX := F.rotate (F.radians XrotationDegrees) ⟨1, 0, 0⟩
  let rotationY := F.rotate (F.radians YrotationDegrees) ⟨0, 1, 0⟩
  let rotationZ := F.rotate (F.radians ZrotationDegrees) ⟨0, 0, 1⟩
  let translation := F.translate positionXYZ
  let modelView := F.mul (F.mul (F.mul (F.mul translation rotationZ) rotationY) rotationX) scale
  if s.m_pShaderManager then
    s.emit [Call.setMat4Value g_ModelName modelView]
  else s

/-- The method `SceneManager::CreateGLTexture`.  `image` is what `stbi_load`
returned (`none` for a null pointer) and `textureID` the name that
`glGenTextures` produced.  The result is `none` when the method writes past
the end of `m_textureIDs` (undefined behaviour in the source). -/
def CreateGLTexture (filename : String) (tag : String) (image : Option Image)
    (textureID : Nat) (s : State R) : Option (Bool × State R) :=
  let s := s.emit [Call.stbi_set_flip_vertically_on_load true, Call.stbi_load filename]
  match image with
  | some img =>
    let s := s.emit [Call.glGenTextures 1 textureID,
      Call.glBindTexture GL_TEXTURE_2D textureID,
      Call.glTexParameteri GL_TEXTURE_2D GL_TEXTURE_WRAP_S GL_REPEAT,
      Call.glTexParameteri GL_TEXTURE_2D GL_TEXTURE_WRAP_T GL_REPEAT,
      Call.glTexParameteri GL_TEXTURE_2D GL_TEXTURE_MIN_FILTER GL_LINEAR,
      Call.glTexParameteri GL_TEXTURE_2D GL_TEXTURE_MAG_FILTER GL_LINEAR]
    let upload : Option (State R) :=
      if img.colorChannels = 3 then
        some (s.emit [Call.glTexImage2D GL_TEXTURE_2D 0 GL_RGB8 img.width img.height 0
          GL_RGB GL_UNSIGNED_BYTE])
      else if img.colorChannels = 4 then
        some (s.emit [Call.glTexImage2D GL_TEXTURE_2D 0 GL_RGBA8 img.width img.height 0
          GL_RGBA GL_UNSIGNED_BYTE])
      else none
    match upload with
    | none => some (false, s)
    | some s =>
      let s := s.emit [Call.glGenerateMipmap GL_TEXTURE_2D, Call.stbi_image_free,
        Call.glBindTexture GL_TEXTURE_2D 0]
      if s.m_loadedTextures < s.m_textureIDs.length then
        some (true,
          { s with
            m_textureIDs := s.m_textureIDs.set s.m_loadedTextures ⟨tag, textureID⟩
            m_loadedTextures := s.m_loadedTextures + 1 })
      else none
  | none => some (false, s)

/-- The loop of `BindGLTextures`, from index `i` on, over the two data members
it reads; `tr` is the trace so far.  The result is `none` when the loop reads
past the end of `m_textureIDs`. -/
def BindGLTextures.loop (m_textureIDs : List TEXTURE_INFO) (m_loadedTextures : Nat)
    (i : Nat) (tr : List (Call R)) : Option (List (Call R)) :=
  if i < m_loadedTextures then
    match m_textureIDs[i]? with
    | some e =>
      BindGLTextures.loop m_textureIDs m_loadedTextures (i + 1)
        (tr ++ [Call.glActiveTexture (GL_TEXTURE0 + i), Call.glBindTexture GL_TEXTURE_2D e.ID])
    | none => none
  else some tr
termination_by m_loadedTextures - i

/-- The method `SceneManager::BindGLTextures`. -/
def BindGLTextures (s : State R) : Option (State R) :=
  (BindGLTextures.loop s.m_textureIDs s.m_loadedTextures 0 s.trace).map
    fun tr => { s with trace := tr }

/-- The loop of `DestroyGLTextures`, from index `i` on. -/
def DestroyGLTextures.loop (m_textureIDs : List TEXTURE_INFO) (m_loadedTextures : Nat)
    (i : Nat) (tr : List (Call R)) : Option (List (Call R)) :=
  if i < m_loadedTextures then
    match m_textureIDs[i]? with
    | some e =>
      DestroyGLTextures.loop m_textureIDs m_loadedTextures (i + 1)
        (tr ++ [Call.glDeleteTextures 1 e.ID])
    | none => none
  else some tr
termination_by m_loadedTextures - i

/-- The method `SceneManager::DestroyGLTextures`. -/
def DestroyGLTextures (s : State R) : Option (State R) :=
  (DestroyGLTextures.loop s.m_textureIDs s.m_loadedTextures 0 s.trace).map
    fun tr => { s with trace := tr }

/-- The `while` loop of `FindTextureID` on its three local variables.  The
result is `none` when the loop reads past the end of `m_textureIDs`. -/
def FindTextureID.loop (m_textureIDs : List TEXTURE_INFO) (m_loadedTextures : Nat)
    (tag : String) (textureID : Int) (index : Nat) (bFound : Bool) : Option Int :=
  if index < m_loadedTextures ∧ bFound = false then
    match m_textureIDs[index]? with
    | some e =>
      if e.tag = tag then
        FindTextureID.loop m_textureIDs m_loadedTextures tag (toInt32 e.ID) index true
      else FindTextureID.loop m_textureIDs m_loadedTextures tag textureID (index + 1) bFound
    | none => none
  else some textureID
termination_by (m_loadedTextures - index) + (if bFound then 0 else 1)
decreasing_by
  all_goals simp_wf
  · have h := (by assumption : _ ∧ bFound = false)
    simp [h.2]
  · omega

/-- The method `SceneManager::FindTextureID`. -/
def FindTextureID (s : State R) (tag : String) : Option Int :=
  FindTextureID.loop s.m_textureIDs s.m_loadedTextures tag (-1) 0 false

/-- The `while` loop of `FindTextureSlot` on its three local variables. -/
def FindTextureSlot.loop (m_textureIDs : List TEXTURE_INFO) (m_loadedTextures : Nat)
    (tag : String) (textureSlot : Int) (index : Nat) (bFound : Bool) : Option Int :=
  if index < m_loadedTextures ∧ bFound = false then
    match m_textureIDs[index]? with
    | some e =>
      if e.tag = tag then
        FindTextureSlot.loop m_textureIDs m_loadedTextures tag (index : Int) index true
      else FindTextureSlot.loop m_textureIDs m_loadedTextures tag textureSlot (index + 1) bFound
    | none => none
  else some textureSlot
termination_by (m_loadedTextures - index) + (if bFound then 0 else 1)
decreasing_by
  all_goals simp_wf
  · have h := (by assumption : _ ∧ bFound = false)
    simp [h.2]
  · omega

/-- The method `SceneManager::FindTextureSlot`. -/
def FindTextureSlot (s : State R) (tag : String) : Option Int :=
  FindTextureSlot.loop s.m_textureIDs s.m_loadedTextures tag (-1) 0 false

/-- The `while` loop of `FindMaterial` on `index`, `bFound` and the output
parameter `material`. -/
def FindMaterial.loop (mats : List (OBJECT_MATERIAL R)) (tag : String) (index : Nat)
    (bFound : Bool) (material : OBJECT_MATERIAL R) : OBJECT_MATERIAL R :=
  if h : index < mats.length ∧ bFound = false then
    if (mats.get ⟨index, h.1⟩).tag = tag then
      FindMaterial.loop mats tag index true
        { material with
          ambientColor := (mats.get ⟨index, h.1⟩).ambientColor
          ambientStrength := (mats.get ⟨index, h.1⟩).ambientStrength
          diffuseColor := (mats.get ⟨index, h.1⟩).diffuseColor
          specularColor := (mats.get ⟨index, h.1⟩).specularColor
          shininess := (mats.get ⟨index, h.1⟩).shininess }
    else FindMaterial.loop mats tag (index + 1) bFound material
  else material
termination_by (mats.length - index) + (if bFound then 0 else 1)
decreasing_by
  all_goals simp_wf
  · have h := (by assumption : _ ∧ bFound = false)
    simp [h.2]
  · omega

/-- The method `SceneManager::FindMaterial`: the returned pair is the `bool`
result and the value of the output parameter `material` on return. -/
def FindMaterial (s : State R) (tag : String) (material : OBJECT_MATERIAL R) :
    Bool × OBJECT_MATERIAL R :=
  if s.m_objectMaterials.length = 0 then (false, material)
  else (true, FindMaterial.loop s.m_objectMaterials tag 0 false material)

/-- The method `SceneManager::SetShaderMaterial`.  `uninit` is the content of
the local `OBJECT_MATERIAL material`, which the source does not initialise.
The result is `none` when the method calls through a null
`m_pShaderManager`. -/
def SetShaderMaterial (materialTag : String) (uninit : OBJECT_MATERIAL R)
    (s : State R) : Option (State R) :=
  if s.m_objectMaterials.length > 0 then
    let r := FindMaterial s materialTag uninit
    let bReturn := r.1
    let material := r.2
    if bReturn = true then
      if s.m_pShaderManager then
        some (s.emit [
          Call.setVec3Value "material.ambientColor" material.ambientColor,
          Call.setFloatValue "material.ambientStrength" material.ambientStrength,
          Call.setVec3Value "material.diffuseColor" material.diffuseColor,
          Call.setVec3Value "material.specularColor" material.specularColor,
          Call.setFloatValue "material.shininess" material.shininess])
      else none
    else some s
  else some s

/-- The method `SceneManager::SetShaderColor`.  The `bool` passed to
`setIntValue` arrives as the `int` 0. -/
def SetShaderColor (redColorValue greenColorValue blueColorValue alphaValue : R)
    (s : State R) : State R :=
  let currentColor : vec4 R := ⟨redColorValue, greenColorValue, blueColorValue, alphaValue⟩
  if s.m_pShaderManager then
    s.emit [Call.setIntValue g_UseTextureName 0,
      Call.setVec4Value g_ColorValueName currentColor]
  else s

/-- The method `SceneManager::SetShaderTexture`.  The `bool` passed to
`setIntValue` arrives as the `int` 1.  The result is `none` when
`FindTextureSlot` reads past the end of `m_textureIDs`. -/
def SetShaderTexture (textureTag : String) (s : State R) : Option (State R) :=
  if s.m_pShaderManager then
    let s1 := s.emit [Call.setIntValue g_UseTextureName 1]
    match FindTextureSlot s1 textureTag with
    | some textureID => some (s1.emit [Call.setSampler2DValue g_TextureValueName textureID])
    | none => none
  else some s

/-- The method `SceneManager::SetTextureUVScale`. -/
def SetTextureUVScale (u v : R) (s : State R) : State R :=
  if s.m_pShaderManager then
    s.emit [Call.setVec2Value "UVscale" ⟨u, v⟩]
  else s

end methods

/-! ## The scene: materials, lights, textures -/

/-- The method `SceneManager::DefineObjectMaterials`.  Every local
`OBJECT_MATERIAL` starts uninitialised; `uninit` gives that content, by the
name of the local.  The source assigns `diffuseColor`, `specularColor`,
`shininess` and `tag` and then calls `push_back`, except for
`innerLemonMaterial`, for which there is no `push_back`. -/
def DefineObjectMaterials (uninit : String → OBJECT_MATERIAL ℚ) (s : State ℚ) : State ℚ :=
  let woodMaterial : OBJECT_MATERIAL ℚ :=
    { uninit "woodMaterial" with
      diffuseColor := ⟨0.54, 0.27, 0.07⟩, specularColor := ⟨0.2, 0.2, 0.2⟩
      shininess := 12.0, tag := "wood" }
  let s := { s with m_objectMaterials := s.m_objectMaterials ++ [woodMaterial] }
  let glassMaterial : OBJECT_MATERIAL ℚ :=
    { uninit "glassMaterial" with
      diffuseColor := ⟨0.3, 0.3, 0.3⟩, specularColor := ⟨0.2, 0.2, 0.2⟩
      shininess := 32.0, tag := "glass" }
  let s := { s with m_objectMaterials := s.m_objectMaterials ++ [glassMaterial] }
  let beerMaterial : OBJECT_MATERIAL ℚ :=
    { uninit "beerMaterial" with
      diffuseColor := ⟨0.8, 0.6, 0.1⟩, specularColor := ⟨0.1, 0.1, 0.1⟩
      shininess := 0.5, tag := "beer" }
  let s := { s with m_objectMaterials := s.m_objectMaterials ++ [beerMaterial] }
  let foamMaterial : OBJECT_MATERIAL ℚ :=
    { uninit "foamMaterial" with
      diffuseColor := ⟨0.9, 0.9, 0.9⟩, specularColor := ⟨0.2, 0.2, 0.2⟩
      shininess := 0.25, tag := "foam" }
  let s := { s with m_objectMaterials := s.m_objectMaterials ++ [foamMaterial] }
  let lemonMaterial : OBJECT_MATERIAL ℚ :=
    { uninit "lemonMaterial" with
      diffuseColor := ⟨1.0, 0.9, 0.0⟩, specularColor := ⟨0.05, 0.05, 0.05⟩
      shininess := 2.0, tag := "lemon" }
  let s := { s with m_objectMaterials := s.m_objectMaterials ++ [lemonMaterial] }
  let _innerLemonMaterial : OBJECT_MATERIAL ℚ :=
    { uninit "innerLemonMaterial" with
      diffuseColor := ⟨1.0, 0.85, 0.0⟩, specularColor := ⟨0.0, 0.0, 0.0⟩
      shininess := 0.0, tag := "innerLemon" }
  let backdropMaterial : OBJECT_MATERIAL ℚ :=
    { uninit "backdropMaterial" with
      diffuseColor := ⟨0.6, 0.5, 0.1⟩, specularColor := ⟨0.0, 0.0, 0.0⟩
      shininess := 0.0, tag := "backdrop" }
  let s := { s with m_objectMaterials := s.m_objectMaterials ++ [backdropMaterial] }
  let plateMaterial : OBJECT_MATERIAL ℚ :=
    { uninit "plateMaterial" with
      diffuseColor := ⟨0.4, 0.4, 0.4⟩, specularColor := ⟨0.3, 0.3, 0.3⟩
      shininess := 30.0, tag := "plate" }
  let s := { s with m_objectMaterials := s.m_objectMaterials ++ [plateMaterial] }
  let steelMaterial : OBJECT_MATERIAL ℚ :=
    { uninit "steelMaterial" with
      diffuseColor := ⟨0.4, 0.4, 0.4⟩, specularColor := ⟨0.6, 0.6, 0.6⟩
      shininess := 82.0, tag := "metal" }
  let s := { s with m_objectMaterials := s.m_objectMaterials ++ [steelMaterial] }
  s

/-- The method `SceneManager::SetupSceneLights`.  It calls through
`m_pShaderManager` without a null test: the result is `none` for a null
pointer.  The three-float overload of `setVec3Value` is recorded with the
vector of its arguments. -/
def SetupSceneLights (s : State ℚ) : Option (State ℚ) :=
  if s.m_pShaderManager then
    let brightnessModifier : ℚ := 1.0
    some (s.emit [
      Call.setBoolValue g_UseLightingName true,
      Call.setVec3Value "globalAmbientColor" ⟨0.15, 0.15, 0.15⟩,
      Call.setVec3Value "lightSources[0].position" ⟨0.0, 10.0, 0.0⟩,
      Call.setVec3Value "lightSources[0].diffuseColor"
        ⟨0.9 * brightnessModifier, 0.8 * brightnessModifier, 0.7 * brightnessModifier⟩,
      Call.setVec3Value "lightSources[0].specularColor"
        ⟨0.9 * brightnessModifier, 0.8 * brightnessModifier, 0.7 * brightnessModifier⟩,
      Call.setFloatValue "lightSources[0].focalStrength" (20.0 * brightnessModifier),
      Call.setFloatValue "lightSources[0].specularIntensity" (0.5 * brightnessModifier),
      Call.setVec3Value "lightSources[1].position" ⟨5.0, 5.0, 5.0⟩,
      Call.setVec3Value "lightSources[1].diffuseColor"
        ⟨0.2 * brightnessModifier, 0.2 * brightnessModifier, 0.2 * brightnessModifier⟩,
      Call.setVec3Value "lightSources[1].specularColor"
        ⟨0.2 * brightnessModifier, 0.2 * brightnessModifier, 0.2 * brightnessModifier⟩,
      Call.setFloatValue "lightSources[1].focalStrength" (8.0 * brightnessModifier),
      Call.setFloatValue "lightSources[1].specularIntensity" (0.05 * brightnessModifier),
      Call.setVec3Value "lightSources[2].position" ⟨-5.0, 5.0, 5.0⟩,
      Call.setVec3Value "lightSources[2].diffuseColor"
        ⟨0.2 * brightnessModifier, 0.2 * brightnessModifier, 0.2 * brightnessModifier⟩,
      Call.setVec3Value "lightSources[2].specularColor"
        ⟨0.2 * brightnessModifier, 0.2 * brightnessModifier, 0.2 * brightnessModifier⟩,
      Call.setFloatValue "lightSources[2].focalStrength" (8.0 * brightnessModifier),
      Call.setFloatValue "lightSources[2].specularIntensity" (0.05 * brightnessModifier),
      Call.setVec3Value "lightSources[3].position" ⟨0.0, 3.0, -5.0⟩,
      Call.setVec3Value "lightSources[3].diffuseColor"
        ⟨0.1 * brightnessModifier, 0.1 * brightnessModifier, 1.0 * brightnessModifier⟩,
      Call.setVec3Value "lightSources[3].specularColor"
        ⟨0.1 * brightnessModifier, 0.1 * brightnessModifier, 1.0 * brightnessModifier⟩,
      Call.setFloatValue "lightSources[3].focalStrength" (20.0 * brightnessModifier),
      Call.setFloatValue "lightSources[3].specularIntensity" (0.5 * brightnessModifier)])
  else none

/-- What the image decoder and `glGenTextures` answer during one load, by the
name of the file being loaded. -/
structure Loader where
  stbi_load : String → Option Image
  glGenTextures : String → Nat

/-- One `bReturn = CreateGLTexture(filename, tag)` of `PrepareScene`, with the
answers of the collaborators taken from `env`.  `prev` is the state the
preceding statements left, `none` when they already ran into undefined
behaviour.  After the call the source only writes a message to `std::cerr`
when `bReturn` is false; the message is not modelled, so `bReturn` is
dropped. -/
@[noinline]
def Loader.CreateGLTexture (env : Loader) (filename tag : String)
    (prev : Option (State ℚ)) : Option (State ℚ) :=
  match prev with
  | some s =>
    match SceneManager.CreateGLTexture filename tag (env.stbi_load filename)
        (env.glGenTextures filename) s with
    | some bReturn => some bReturn.2
    | none => none
  | none => none

/-- The method `SceneManager::PrepareScene`: its statements in source order,
each applied to the state left by the one before. -/
def PrepareScene (env : Loader) (uninit : String → OBJECT_MATERIAL ℚ) (s : State ℚ) :
    Option (State ℚ) :=
  (SetupSceneLights (DefineObjectMaterials uninit s)).map (fun s =>
      s.emit [Call.LoadMesh Mesh.Box, Call.LoadMesh Mesh.Plane,
        Call.LoadMesh Mesh.Cylinder, Call.LoadMesh Mesh.Cone, Call.LoadMesh Mesh.Prism,
        Call.LoadMesh Mesh.Pyramid4, Call.LoadMesh Mesh.Sphere,
        Call.LoadMesh Mesh.TaperedCylinder, Call.LoadMesh Mesh.Torus])
    |> env.CreateGLTexture "textures/rusticwood.jpg" "table"
    |> env.CreateGLTexture "textures/amber.jpg" "beerBody"
    |> env.CreateGLTexture "textures/glass.jpg" "clearglass"
    |> env.CreateGLTexture "textures/foam2.jpg" "beerFoam"
    |> env.CreateGLTexture "textures/insideLemon.jpg" "inLemon"
    |> env.CreateGLTexture "textures/lemonSkin2.jpg" "outLemon"
    |> env.CreateGLTexture "textures/bubbles.png" "bubbles"
    |> env.CreateGLTexture "textures/field.jpg" "backdrop"
    |> env.CreateGLTexture "textures/bottleglass.jpg" "bottleglass"
    |> env.CreateGLTexture "textures/stainless.jpg" "stainless"
    |> env.CreateGLTexture "textures/knife_handle.jpg" "knifeHandle"
    |> env.CreateGLTexture "textures/stainless_end.jpg" "metalScrew"
    |> fun prev => prev.bind BindGLTextures

/-- The twelve loads of `PrepareScene`, in source order: file name and tag. -/
def sceneTextures : List (String × String) :=
  [("textures/rusticwood.jpg", "table"), ("textures/amber.jpg", "beerBody"),
   ("textures/glass.jpg", "clearglass"), ("textures/foam2.jpg", "beerFoam"),
   ("textures/insideLemon.jpg", "inLemon"), ("textures/lemonSkin2.jpg", "outLemon"),
   ("textures/bubbles.png", "bubbles"), ("textures/field.jpg", "backdrop"),
   ("textures/bottleglass.jpg", "bottleglass"), ("textures/stainless.jpg", "stainless"),
   ("textures/knife_handle.jpg", "knifeHandle"),
   ("textures/stainless_end.jpg", "metalScrew")]

/-- A list of loads run one after the other, as `PrepareScene` runs its
twelve. -/
def Loader.loadAll (env : Loader) : List (String × String) → Option (State ℚ) →
    Option (State ℚ)
  | [], prev => prev
  | (filename, tag) :: rest, prev => env.loadAll rest (env.CreateGLTexture filename tag prev)

/-- A load succeeds when the image decodes with 3 or 4 channels. -/
def Loader.succeeds (env : Loader) (filename : String) : Bool :=
  match env.stbi_load filename with
  | some img => img.colorChannels = 3 ∨ img.colorChannels = 4
  | none => false

/-! ## The scene: rendering

The render methods are straight-line code: each is a fixed sequence of calls
to the state-setting methods, to the mesh collaborator and to OpenGL.  Each
method is embedded as that sequence, a list of `Stmt`, with the arguments the
source passes (the values its locals hold at the call); `Stmt.run` gives a
statement its meaning on the state. -/

/-- One call statement of a render method. -/
inductive Stmt where
  | SetTransformations (scaleXYZ : vec3 ℚ)
      (XrotationDegrees YrotationDegrees ZrotationDegrees : ℚ) (positionXYZ : vec3 ℚ)
  | SetShaderColor (redColorValue greenColorValue blueColorValue alphaValue : ℚ)
  | SetShaderTexture (textureTag : String)
  | SetTextureUVScale (u v : ℚ)
  | SetShaderMaterial (materialTag : String)
  | DrawMesh (mesh : Mesh) (args : List Bool)
  | glEnable (cap : Nat)
  | glDisable (cap : Nat)
  | glBlendFunc (sfactor dfactor : Nat)
deriving DecidableEq, Repr

/-- The method `SceneManager::RenderTable`. -/
def RenderTable : List Stmt :=
  [.glEnable GL_BLEND,
   .glBlendFunc GL_SRC_ALPHA GL_ONE_MINUS_SRC_ALPHA,
   .SetTransformations ⟨50.0, 2.0, 30.0⟩ 0.0 0.0 0.0 ⟨0.0, -0.8, 0.0⟩,
   .SetShaderTexture "table",
   .SetTextureUVScale 1.0 1.0,
   .SetShaderMaterial "wood",
   .DrawMesh Mesh.Box [],
   .glDisable GL_BLEND]

/-- The method `SceneManager::RenderBackdrop`. -/
def RenderBackdrop : List Stmt :=
  [.SetTransformations ⟨40.0, 2.0, 25.0⟩ 90.0 0.0 0.0 ⟨0.0, 5.0, -8.0⟩,
   .SetShaderTexture "backdrop",
   .SetTextureUVScale 1.0 1.0,
   .SetShaderMaterial "backdrop",
   .DrawMesh Mesh.Plane []]

/-- The method `SceneManager::RenderBeerGlass`. -/
def RenderBeerGlass : List Stmt :=
  [.glEnable GL_BLEND,
   .glBlendFunc GL_SRC_ALPHA GL_ONE_MINUS_SRC_ALPHA,
   -- glass base
   .SetTransformations ⟨1.5, 0.5625, 1.5⟩ 0.0 0.0 0.0 ⟨0.0, 0.25, 0.0⟩,
   .SetShaderColor 0.8 0.9 1.0 0.5,
   .SetShaderMaterial "glass",
   .DrawMesh Mesh.TaperedCylinder [],
   -- glass body
   .SetTransformations ⟨1.5, 5.625, 1.5⟩ 180.0 0.0 0.0 ⟨0.0, 6.25, 0.0⟩,
   .SetShaderTexture "beerBody",
   .SetTextureUVScale 1.0 1.0,
   .DrawMesh Mesh.TaperedCylinder [],
   -- bubbles over the body
   .SetShaderTexture "bubbles",
   .SetTextureUVScale 1.0 1.0,
   .SetShaderMaterial "beer",
   .DrawMesh Mesh.TaperedCylinder [],
   -- beer head
   .SetTransformations ⟨1.5, 1.2, 1.5⟩ 0.0 0.0 0.0 ⟨0.0, 6.25, 0.0⟩,
   .SetShaderTexture "beerFoam",
   .SetTextureUVScale 1.0 1.0,
   .SetShaderMaterial "foam",
   .DrawMesh Mesh.Cylinder [],
   -- inner lemon
   .SetTransformations ⟨0.75, 0.15, 0.75⟩ 90.0 0.0 0.0 ⟨1.5, 7.375, 0.0⟩,
   .SetShaderTexture "inLemon",
   .DrawMesh Mesh.Cylinder [],
   -- outer lemon
   .SetTransformations ⟨0.8625, 0.14925, 0.8625⟩ 90.0 0.0 0.0 ⟨1.5, 7.375, 0.0⟩,
   .SetShaderTexture "outLemon",
   .SetTextureUVScale 1.0 1.0,
   .SetShaderMaterial "lemon",
   .DrawMesh Mesh.Cylinder [],
   .glDisable GL_BLEND]

/-- The method `SceneManager::RenderBeerBottle`. -/
def RenderBeerBottle : List Stmt :=
  [.SetTransformations ⟨1.125, 0.5625, 1.125⟩ 180.0 0.0 180.0 ⟨-4.5, 0.2, -2.0⟩,
   .SetShaderTexture "bottleglass",
   .SetTextureUVScale 1.0 1.0,
   .SetShaderMaterial "glass",
   .DrawMesh Mesh.HalfSphere [],
   .SetTransformations ⟨1.125, 4.375, 1.125⟩ 0.0 0.0 0.0 ⟨-4.5, 0.2, -2.0⟩,
   .SetShaderTexture "bottleglass",
   .SetTextureUVScale 1.0 1.0,
   .SetShaderMaterial "glass",
   .DrawMesh Mesh.Cylinder [false, false, true],
   .SetTransformations ⟨1.1375, 1.125, 1.1375⟩ 0.0 (-6.0) 0.0 ⟨-4.5, 4.5375, -2.0⟩,
   .SetShaderTexture "bottleglass",
   .SetTextureUVScale 1.0 1.0,
   .SetShaderMaterial "glass",
   .DrawMesh Mesh.HalfSphere [],
   .SetTransformations ⟨0.5625, 3.75, 0.5625⟩ 0.0 0.0 0.0 ⟨-4.5, 5.3375, -2.0⟩,
   .SetShaderTexture "bottleglass",
   .SetTextureUVScale 1.0 1.0,
   .SetShaderMaterial "glass",
   .DrawMesh Mesh.Cylinder [false, false, true],
   .SetTransformations ⟨0.6, 0.225, 0.6⟩ 0.0 0.0 0.0 ⟨-4.5, 8.875, -2.0⟩,
   .SetShaderColor 0.8 0.5 0.2 1.0,
   .SetShaderMaterial "glass",
   .DrawMesh Mesh.Cylinder [],
   .SetTransformations ⟨0.525, 0.525, 0.75⟩ 90.0 0.0 0.0 ⟨-4.5, 8.7125, -2.0⟩,
   .SetShaderTexture "bottleglass",
   .SetTextureUVScale 1.0 1.0,
   .SetShaderMaterial "glass",
   .DrawMesh Mesh.Torus []]

/-- The method `SceneManager::RenderPlate`. -/
def RenderPlate : List Stmt :=
  [.SetTransformations ⟨0.92, 0.16, 0.92⟩ 0.0 0.0 0.0 ⟨-2.7, 0.2, 1.8⟩,
   .SetShaderColor 1 1 1 1.0,
   .SetShaderMaterial "plate",
   .DrawMesh Mesh.Cylinder [],
   .SetTransformations ⟨2.12, 0.2, 2.12⟩ 180.0 0.0 0.0 ⟨-2.7, 0.55, 1.8⟩,
   .SetShaderColor 1 1 1 1.0,
   .SetShaderMaterial "plate",
   .DrawMesh Mesh.HalfSphere []]

/-- The method `SceneManager::RenderLemon`. -/
def RenderLemon : List Stmt :=
  [.SetTransformations ⟨0.95, 0.75, 0.95⟩ 0.0 0.0 0.0 ⟨-3.7, 1.1, 1.3⟩,
   .SetShaderTexture "outLemon",
   .SetTextureUVScale 1.0 1.0,
   .SetShaderMaterial "lemon",
   .DrawMesh Mesh.Sphere [],
   .SetTransformations ⟨0.85, 0.75, 0.75⟩ 0.0 0.0 0.0 ⟨-1.9, 1.1, 1.4⟩,
   .DrawMesh Mesh.Sphere [],
   .SetTransformations ⟨0.70, 0.15, 0.70⟩ 0.0 90.0 0.0 ⟨-3.0, 0.5, 2.9⟩,
   .SetShaderTexture "inLemon",
   .SetTextureUVScale 1.0 1.0,
   .SetShaderMaterial "lemon",
   .DrawMesh Mesh.Cylinder [],
   .SetTransformations ⟨0.8, 0.14925, 0.8⟩ 0.0 90.0 0.0 ⟨-3.0, 0.5, 2.9⟩,
   .SetShaderTexture "outLemon",
   .DrawMesh Mesh.Cylinder [],
   .SetTransformations ⟨0.72, 0.15, 0.72⟩ 0.0 90.0 0.0 ⟨-3.2, 0.65, 2.9⟩,
   .SetShaderTexture "inLemon",
   .DrawMesh Mesh.Cylinder [],
   .SetTransformations ⟨0.8, 0.14925, 0.8⟩ 0.0 90.0 0.0 ⟨-3.2, 0.65, 2.9⟩,
   .SetShaderTexture "outLemon",
   .DrawMesh Mesh.Cylinder [],
   .SetTransformations ⟨0.70, 0.15, 0.70⟩ 0.0 90.0 0.0 ⟨-2.8, 0.8, 2.8⟩,
   .SetShaderTexture "inLemon",
   .DrawMesh Mesh.Cylinder [],
   .SetTransformations ⟨0.8, 0.14925, 0.8⟩ 0.0 90.0 0.0 ⟨-2.8, 0.8, 2.8⟩,
   .SetShaderTexture "outLemon",
   .DrawMesh Mesh.Cylinder []]

/-- The method `SceneManager::RenderKnife`. -/
def RenderKnife : List Stmt :=
  [.SetTransformations ⟨1.0, 0.18, 0.20⟩ 0.0 20.0 0.0 ⟨0.0, 0.19, 2.8⟩,
   .SetShaderTexture "knifeHandle",
   .SetTextureUVScale 1.0 1.0,
   .SetShaderMaterial "wood",
   .DrawMesh Mesh.Cylinder [],
   .SetTransformations ⟨0.3, 2.0, 0.02⟩ 90.0 110.0 0.0 ⟨1.5, 0.30, 2.25⟩,
   .SetShaderTexture "stainless",
   .SetTextureUVScale 1.0 1.0,
   .SetShaderMaterial "metal",
   .DrawMesh Mesh.Pyramid4 [],
   .SetTransformations ⟨0.05, 0.186, 0.05⟩ 0.0 0.0 0.0 ⟨0.5, 0.2, 2.625⟩,
   .SetShaderTexture "metalScrew",
   .SetTextureUVScale 1.0 1.0,
   .SetShaderMaterial "glass",
   .DrawMesh Mesh.Cylinder [true, true, false]]

/-- The method `SceneManager::RenderScene`. -/
def RenderScene : List Stmt :=
  RenderTable ++ RenderBackdrop ++ RenderBeerGlass ++ RenderBeerBottle ++ RenderPlate
    ++ RenderLemon ++ RenderKnife

/-- The effect of one statement on the state.  `F` holds the scalar functions
of `SetTransformations` and `uninit` the content of the uninitialised local of
`SetShaderMaterial`.  The result is `none` when the called method runs into
undefined behaviour. -/
def Stmt.run (F : FloatOps ℚ) (uninit : OBJECT_MATERIAL ℚ) :
    Stmt → State ℚ → Option (State ℚ)
  | .SetTransformations sc x y z p, s => some (SceneManager.SetTransformations F sc x y z p s)
  | .SetShaderColor r g b a, s => some (SceneManager.SetShaderColor r g b a s)
  | .SetShaderTexture tag, s => SceneManager.SetShaderTexture tag s
  | .SetTextureUVScale u v, s => some (SceneManager.SetTextureUVScale u v s)
  | .SetShaderMaterial tag, s => SceneManager.SetShaderMaterial tag uninit s
  | .DrawMesh mesh args, s => some (s.emit [Call.DrawMesh mesh args])
  | .glEnable cap, s => some (s.emit [Call.glEnable cap])
  | .glDisable cap, s => some (s.emit [Call.glDisable cap])
  | .glBlendFunc sf df, s => some (s.emit [Call.glBlendFunc sf df])

/-- A sequence of statements run in order. -/
def runStmts (F : FloatOps ℚ) (uninit : OBJECT_MATERIAL ℚ) :
    List Stmt → State ℚ → Option (State ℚ)
  | [], s => some s
  | c :: cs, s =>
    match c.run F uninit s with
    | some s1 => runStmts F uninit cs s1
    | none => none

/-! ## Reading traces and call sequences -/

/-- The uniform a call to the shader manager sets, if it is such a call. -/
def Call.uniformName {R : Type} : Call R → Option String
  | .setMat4Value name _ => some name
  | .setIntValue name _ => some name
  | .setVec4Value name _ => some name
  | .setSampler2DValue name _ => some name
  | .setVec2Value name _ => some name
  | .setVec3Value name _ => some name
  | .setFloatValue name _ => some name
  | .setBoolValue name _ => some name
  | _ => none

/-- The call that last set the uniform `name` in a trace: what the uniform
holds after the trace. -/
def uniform {R : Type} (tr : List (Call R)) (name : String) : Option (Call R) :=
  (tr.filter fun c => c.uniformName = some name).getLast?

/-- The file a call asks the image decoder to load, if it is such a call. -/
def Call.loadedFile {R : Type} : Call R → Option String
  | .stbi_load filename => some filename
  | _ => none

/-- The statement is a mesh draw. -/
def Stmt.isDraw : Stmt → Bool
  | .DrawMesh _ _ => true
  | _ => false

/-- The statement is a `SetTransformations` call. -/
def Stmt.isSetTransformations : Stmt → Bool
  | .SetTransformations _ _ _ _ _ => true
  | _ => false

/-- The statement is a `SetShaderColor` or a `SetShaderTexture` call. -/
def Stmt.isColorOrTexture : Stmt → Bool
  | .SetShaderColor _ _ _ _ => true
  | .SetShaderTexture _ => true
  | _ => false

/-- The statement is a `SetShaderTexture` call. -/
def Stmt.isSetShaderTexture : Stmt → Bool
  | .SetShaderTexture _ => true
  | _ => false

/-- The statement is a `SetShaderMaterial` call. -/
def Stmt.isSetShaderMaterial : Stmt → Bool
  | .SetShaderMaterial _ => true
  | _ => false

/-- The statement is a call to one of the five state-setting methods. -/
def Stmt.setsState : Stmt → Bool
  | .SetTransformations _ _ _ _ _ => true
  | .SetShaderColor _ _ _ _ => true
  | .SetShaderTexture _ => true
  | .SetTextureUVScale _ _ => true
  | .SetShaderMaterial _ => true
  | _ => false

/-- The colour a `SetShaderColor` statement passes. -/
def Stmt.color : Stmt → Option (vec4 ℚ)
  | .SetShaderColor r g b a => some ⟨r, g, b, a⟩
  | _ => none

/-- The last `SetShaderColor` or `SetShaderTexture` call of a sequence. -/
def lastModeCall (seq : List Stmt) : Option Stmt :=
  (seq.filter Stmt.isColorOrTexture).getLast?

/-- The last `SetShaderColor` call of a sequence. -/
def lastColorCall (seq : List Stmt) : Option Stmt :=
  (seq.filter fun c => (Stmt.color c).isSome).getLast?

/-- The statements issued before each mesh draw since the previous draw (or
the start): one list per draw, in order.  `cur` collects the statements seen
since the last draw. -/
def drawSegmentsFrom (cur : List Stmt) : List Stmt → List (List Stmt)
  | [] => []
  | c :: cs => if c.isDraw then cur :: drawSegmentsFrom [] cs
               else drawSegmentsFrom (cur ++ [c]) cs

/-- The statements between each mesh draw and the previous one. -/
def drawSegments (seq : List Stmt) : List (List Stmt) := drawSegmentsFrom [] seq

/-- All the statements issued before each mesh draw, from the start of the
sequence: one list per draw, in order. -/
def drawPrefixesFrom (cur : List Stmt) : List Stmt → List (List Stmt)
  | [] => []
  | c :: cs => if c.isDraw then cur :: drawPrefixesFrom (cur ++ [c]) cs
               else drawPrefixesFrom (cur ++ [c]) cs

/-- All the statements issued before each mesh draw. -/
def drawPrefixes (seq : List Stmt) : List (List Stmt) := drawPrefixesFrom [] seq

/-- The statements hold a `SetTransformations` call, a `SetShaderColor` or
`SetShaderTexture` call, and a `SetShaderMaterial` call. -/
def setsAllThree (seg : List Stmt) : Bool :=
  seg.any Stmt.isSetTransformations && seg.any Stmt.isColorOrTexture
    && seg.any Stmt.isSetShaderMaterial

/-- For each mesh draw of a sequence, in order, whether `GL_BLEND` is enabled
when the draw is issued; `blend` is the setting before the sequence. -/
def blendAtDraws (blend : Bool) : List Stmt → List Bool
  | [] => []
  | .glEnable cap :: cs => blendAtDraws (if cap = GL_BLEND then true else blend) cs
  | .glDisable cap :: cs => blendAtDraws (if cap = GL_BLEND then false else blend) cs
  | .DrawMesh _ _ :: cs => blend :: blendAtDraws blend cs
  | _ :: cs => blendAtDraws blend cs

/-- Whether `GL_BLEND` is enabled after a sequence; `blend` is the setting
before it. -/
def blendAfter (blend : Bool) : List Stmt → Bool
  | [] => blend
  | .glEnable cap :: cs => blendAfter (if cap = GL_BLEND then true else blend) cs
  | .glDisable cap :: cs => blendAfter (if cap = GL_BLEND then false else blend) cs
  | _ :: cs => blendAfter blend cs

/-- Some draw with blending disabled comes after a draw with blending
enabled. -/
def opaqueAfterBlended : List Bool → Bool
  | [] => false
  | b :: bs => (b && bs.any fun x => !x) || opaqueAfterBlended bs

/-- The tags the `SetShaderMaterial` calls of a sequence name, in order. -/
def materialTags (seq : List Stmt) : List String :=
  seq.filterMap fun c => match c with
    | .SetShaderMaterial tag => some tag
    | _ => none

/-- The tags the `SetShaderTexture` calls of a sequence name, in order. -/
def textureTags (seq : List Stmt) : List String :=
  seq.filterMap fun c => match c with
    | .SetShaderTexture tag => some tag
    | _ => none

/-- The calls `BindGLTextures` makes for a registry: for entry `i`, the unit
`GL_TEXTURE0 + i` is activated and the entry's texture name bound. -/
def bindingCalls (R : Type) (registry : List TEXTURE_INFO) : List (Call R) :=
  registry.enum.flatMap fun p =>
    [Call.glActiveTexture (GL_TEXTURE0 + p.1), Call.glBindTexture GL_TEXTURE_2D p.2.ID]

/-! ## Concrete values -/

/-- The `float` that `glm::radians(90.0f)` returns: 13176795 * 2^-23, about
1.5707964 (bit pattern 0x3FC90FDB), the `float` next above pi/2. -/
def halfPi : F32 := F32.dyadic 13176795 23

/-- The `float` that `cos` returns at `halfPi`: -12303662 * 2^-48, about
-4.3711388e-8 (bit pattern 0xB33BBD2E), the `float` nearest to the cosine. -/
def cosHalfPi : F32 := F32.dyadic (-12303662) 48

/-- A C++ math library as far as the rotations by 0 and by 90 degrees about a
coordinate axis need it: `cos` and `sin` at 0 and at `halfPi`, and
`inversesqrt` at 1, each with the `float` nearest to the exact value.  At
other arguments the table holds 0 and stands for nothing. -/
def exampleMath : CMath where
  cos := fun a => if a = 0 then 1 else if a = halfPi then cosHalfPi else 0
  sin := fun a => if a = halfPi then 1 else 0
  inversesqrt := fun a => if a = 1 then 1 else 0

/-- The rationals the entries of a `vec4` of `float`s denote. -/
def vec4.toRat (v : vec4 F32) : vec4 ℚ := ⟨v.x.toRat, v.y.toRat, v.z.toRat, v.w.toRat⟩

/-- The rationals the entries of a `mat4` of `float`s denote. -/
def mat4.toRat (m : mat4 F32) : mat4 ℚ := ⟨m.c0.toRat, m.c1.toRat, m.c2.toRat, m.c3.toRat⟩

/-- Where a matrix sends the point `v`: the first three coordinates of the
product with `(v.x, v.y, v.z, 1)`, in exact arithmetic. -/
def mat4.apply (m : mat4 ℚ) (v : vec3 ℚ) : vec3 ℚ :=
  ⟨m.c0.x * v.x + m.c1.x * v.y + m.c2.x * v.z + m.c3.x,
   m.c0.y * v.x + m.c1.y * v.y + m.c2.y * v.z + m.c3.y,
   m.c0.z * v.x + m.c1.z * v.y + m.c2.z * v.z + m.c3.z⟩

/-- Two `vec4` differ by at most `e` in every entry. -/
def vec4.within (e : ℚ) (a b : vec4 ℚ) : Prop :=
  (a.x - b.x ≤ e ∧ b.x - a.x ≤ e) ∧ (a.y - b.y ≤ e ∧ b.y - a.y ≤ e) ∧
  (a.z - b.z ≤ e ∧ b.z - a.z ≤ e) ∧ (a.w - b.w ≤ e ∧ b.w - a.w ≤ e)

/-- Two matrices differ by at most `e` in every entry. -/
def mat4.within (e : ℚ) (a b : mat4 ℚ) : Prop :=
  vec4.within e a.c0 b.c0 ∧ vec4.within e a.c1 b.c1 ∧
  vec4.within e a.c2 b.c2 ∧ vec4.within e a.c3 b.c3

/-- The matrix that sends every point `(x, y, z)` to `(z + 1, y, -2x)`, by
columns: the exact product for scale (2,1,1), a quarter turn about Y and
position (1,0,0). -/
def exactExample : mat4 ℚ :=
  ⟨⟨0, 0, -2, 0⟩, ⟨0, 1, 0, 0⟩, ⟨1, 0, 0, 0⟩, ⟨1, 0, 0, 1⟩⟩

/-- The matrix `SetTransformations` uploads for scale (2,1,1), rotation
(0,90,0) and position (1,0,0), by columns: about (-8.74e-8, 0, -2, 0),
(0, 0.99999994, 0, 0), (1, 0, -4.37e-8, 0), (1, 0, 0, 1). -/
def floatExample : mat4 F32 :=
  ⟨⟨F32.dyadic (-12303662) 47, 0, F32.dyadic (-2) 0, 0⟩,
   ⟨0, F32.dyadic 16777215 24, 0, 0⟩,
   ⟨1, 0, F32.dyadic (-12303662) 48, 0⟩,
   ⟨1, 0, 0, 1⟩⟩

/-- The glm library at the arguments of a transformation that changes nothing
(scale (1,1,1), all angles 0, position (0,0,0)): there `radians` returns 0 and
`scale`, `rotate`, `translate` and the product of their results return the
identity matrix, in 32-bit floating point as in exact arithmetic.  It is used
for runs whose `SetTransformations` calls have these arguments only. -/
def identityOps : FloatOps ℚ where
  radians := fun _ => 0
  scale := fun _ => ⟨⟨1, 0, 0, 0⟩, ⟨0, 1, 0, 0⟩, ⟨0, 0, 1, 0⟩, ⟨0, 0, 0, 1⟩⟩
  rotate := fun _ _ => ⟨⟨1, 0, 0, 0⟩, ⟨0, 1, 0, 0⟩, ⟨0, 0, 1, 0⟩, ⟨0, 0, 0, 1⟩⟩
  translate := fun _ => ⟨⟨1, 0, 0, 0⟩, ⟨0, 1, 0, 0⟩, ⟨0, 0, 1, 0⟩, ⟨0, 0, 0, 1⟩⟩
  mul := fun _ _ => ⟨⟨1, 0, 0, 0⟩, ⟨0, 1, 0, 0⟩, ⟨0, 0, 1, 0⟩, ⟨0, 0, 0, 1⟩⟩

/-- An array entry that was never written: the empty tag. -/
def TEXTURE_INFO.unset : TEXTURE_INFO := ⟨"", 0⟩

/-- The constructor `SceneManager::SceneManager`: no texture loaded, no
material defined.  `capacity` is the declared size of `m_textureIDs`. -/
def construct (R : Type) (pShaderManager : Bool) (capacity : Nat) : State R :=
  { m_pShaderManager := pShaderManager
    m_textureIDs := List.replicate capacity TEXTURE_INFO.unset
    m_loadedTextures := 0
    m_objectMaterials := []
    trace := [] }

/-- The material `woodMaterial` of `DefineObjectMaterials`; the two ambient
fields, which the source leaves unset, are taken as zero. -/
def woodMaterial : OBJECT_MATERIAL ℚ :=
  { ambientColor := ⟨0, 0, 0⟩
    ambientStrength := 0
    diffuseColor := ⟨54 / 100, 27 / 100, 7 / 100⟩
    specularColor := ⟨2 / 10, 2 / 10, 2 / 10⟩
    shininess := 12
    tag := "wood" }

/-- A content for the uninitialised local of `SetShaderMaterial`. -/
def staleMaterial : OBJECT_MATERIAL ℚ :=
  { ambientColor := ⟨9, 9, 9⟩
    ambientStrength := 9
    diffuseColor := ⟨9, 9, 9⟩
    specularColor := ⟨9, 9, 9⟩
    shininess := 9
    tag := "" }

/-- A scene manager with a 16-entry texture array holding two textures, and
one defined material. -/
def sampleState : State ℚ :=
  { m_pShaderManager := true
    m_textureIDs := [⟨"table", 1⟩, ⟨"beerBody", 2⟩] ++ List.replicate 14 TEXTURE_INFO.unset
    m_loadedTextures := 2
    m_objectMaterials := [woodMaterial]
    trace := [] }

/-- A scene manager whose 16-entry texture array is full. -/
def fullState : State ℚ :=
  { m_pShaderManager := true
    m_textureIDs := [⟨"table", 1⟩, ⟨"beerBody", 2⟩, ⟨"clearglass", 3⟩, ⟨"beerFoam", 4⟩,
      ⟨"inLemon", 5⟩, ⟨"outLemon", 6⟩, ⟨"bubbles", 7⟩, ⟨"backdrop", 8⟩,
      ⟨"bottleglass", 9⟩, ⟨"stainless", 10⟩, ⟨"knifeHandle", 11⟩, ⟨"metalScrew", 12⟩,
      ⟨"extra13", 13⟩, ⟨"extra14", 14⟩, ⟨"extra15", 15⟩, ⟨"extra16", 16⟩]
    m_loadedTextures := 16
    m_objectMaterials := []
    trace := [] }

/-- The scene manager after a fresh one was asked to load a one-channel image:
texture name 7 was generated and bound, nothing was registered. -/
def rejectedState : State ℚ :=
  { construct ℚ true 16 with
    trace := [Call.stbi_set_flip_vertically_on_load true,
      Call.stbi_load "textures/gray.png",
      Call.glGenTextures 1 7, Call.glBindTexture GL_TEXTURE_2D 7,
      Call.glTexParameteri GL_TEXTURE_2D GL_TEXTURE_WRAP_S GL_REPEAT,
      Call.glTexParameteri GL_TEXTURE_2D GL_TEXTURE_WRAP_T GL_REPEAT,
      Call.glTexParameteri GL_TEXTURE_2D GL_TEXTURE_MIN_FILTER GL_LINEAR,
      Call.glTexParameteri GL_TEXTURE_2D GL_TEXTURE_MAG_FILTER GL_LINEAR] }

/-- Uninitialised locals of `DefineObjectMaterials` that happen to hold
zeros. -/
def zeroLocals : String → OBJECT_MATERIAL ℚ := fun _ =>
  { ambientColor := ⟨0, 0, 0⟩, ambientStrength := 0, diffuseColor := ⟨0, 0, 0⟩
    specularColor := ⟨0, 0, 0⟩, shininess := 0, tag := "" }

/-- A run of the loads in which `amber.jpg` cannot be decoded, `glass.jpg`
decodes with one channel, `bubbles.png` with four and every other file with
three; the texture name generated during a load is the length of the file
name. -/
def sampleLoader : Loader where
  stbi_load := fun filename =>
    if filename = "textures/amber.jpg" then none
    else if filename = "textures/glass.jpg" then some ⟨64, 64, 1⟩
    else if filename = "textures/bubbles.png" then some ⟨64, 64, 4⟩
    else some ⟨64, 64, 3⟩
  glGenTextures := fun filename => filename.length

/-- A material list in which the tag "lemon" occurs twice. -/
def twoLemons : State ℚ :=
  { construct ℚ true 16 with
    m_objectMaterials := [woodMaterial,
      { woodMaterial with tag := "lemon", shininess := 2 },
      { woodMaterial with tag := "lemon", shininess := 5 }] }

/-- A scene manager in which the tag "table" is registered twice, under the
texture names 1 and 7. -/
def dupState : State ℚ :=
  { m_pShaderManager := true
    m_textureIDs := [⟨"beerBody", 2⟩, ⟨"table", 1⟩, ⟨"table", 7⟩]
      ++ List.replicate 13 TEXTURE_INFO.unset
    m_loadedTextures := 3
    m_objectMaterials := []
    trace := [] }

/-- A scene manager whose two registered textures have names in the upper half
of the `GLuint` range: "table" under 2147483648 (2^31) and "beerBody" under
4294967295 (2^32 - 1). -/
def highState : State ℚ :=
  { m_pShaderManager := true
    m_textureIDs := [⟨"table", 2147483648⟩, ⟨"beerBody", 4294967295⟩]
      ++ List.replicate 14 TEXTURE_INFO.unset
    m_loadedTextures := 2
    m_objectMaterials := []
    trace := [] }

section theorems
variable {R : Type}

set_option maxRecDepth 100000

/-! ### The lookup loops -/

theorem FindTextureID_loop_found (ids : List TEXTURE_INFO) (n : Nat) (tag : String)
    (tid : Int) (index : Nat) :
    FindTextureID.loop ids n tag tid index true = some tid := by
  rw [FindTextureID.loop]; simp

theorem FindTextureID_loop_end (ids : List TEXTURE_INFO) (n : Nat) (tag : String)
    (tid : Int) (index : Nat) (h : n ≤ index) :
    FindTextureID.loop ids n tag tid index false = some tid := by
  rw [FindTextureID.loop]; simp [Nat.not_lt.mpr h]

theorem FindTextureID_loop_hit (ids : List TEXTURE_INFO) (n : Nat) (tag : String)
    (tid : Int) (index : Nat) (e : TEXTURE_INFO) (hi : index < n)
    (he : ids[index]? = some e) (ht : e.tag = tag) :
    FindTextureID.loop ids n tag tid index false = some (toInt32 e.ID) := by
  rw [FindTextureID.loop]; simp [hi, he, ht, FindTextureID_loop_found]

theorem FindTextureID_loop_miss (ids : List TEXTURE_INFO) (n : Nat) (tag : String)
    (tid : Int) (index : Nat) (e : TEXTURE_INFO) (hi : index < n)
    (he : ids[index]? = some e) (ht : e.tag ≠ tag) :
    FindTextureID.loop ids n tag tid index false
      = FindTextureID.loop ids n tag tid (index + 1) false := by
  rw [FindTextureID.loop]; simp [hi, he, ht]

theorem FindTextureID_loop_skip (ids : List TEXTURE_INFO) (n : Nat) (tag : String)
    (tid : Int) (d : Nat) : ∀ (index : Nat), index + d ≤ n →
    (∀ k, index ≤ k → k < index + d → ∃ e, ids[k]? = some e ∧ e.tag ≠ tag) →
    FindTextureID.loop ids n tag tid index false
      = FindTextureID.loop ids n tag tid (index + d) false := by
  induction d with
  | zero => intro index _ _; rfl
  | succ d ih =>
    intro index hle hall
    obtain ⟨e, he, ht⟩ := hall index (Nat.le_refl _) (by omega)
    rw [FindTextureID_loop_miss ids n tag tid index e (by omega) he ht,
      ih (index + 1) (by omega) (fun k h1 h2 => hall k (by omega) (by omega))]
    congr 1; omega

theorem FindTextureSlot_loop_found (ids : List TEXTURE_INFO) (n : Nat) (tag : String)
    (slot : Int) (index : Nat) :
    FindTextureSlot.loop ids n tag slot index true = some slot := by
  rw [FindTextureSlot.loop]; simp

theorem FindTextureSlot_loop_end (ids : List TEXTURE_INFO) (n : Nat) (tag : String)
    (slot : Int) (index : Nat) (h : n ≤ index) :
    FindTextureSlot.loop ids n tag slot index false = some slot := by
  rw [FindTextureSlot.loop]; simp [Nat.not_lt.mpr h]

theorem FindTextureSlot_loop_hit (ids : List TEXTURE_INFO) (n : Nat) (tag : String)
    (slot : Int) (index : Nat) (e : TEXTURE_INFO) (hi : index < n)
    (he : ids[index]? = some e) (ht : e.tag = tag) :
    FindTextureSlot.loop ids n tag slot index false = some (index : Int) := by
  rw [FindTextureSlot.loop]; simp [hi, he, ht, FindTextureSlot_loop_found]

theorem FindTextureSlot_loop_miss (ids : List TEXTURE_INFO) (n : Nat) (tag : String)
    (slot : Int) (index : Nat) (e : TEXTURE_INFO) (hi : index < n)
    (he : ids[index]? = some e) (ht : e.tag ≠ tag) :
    FindTextureSlot.loop ids n tag slot index false
      = FindTextureSlot.loop ids n tag slot (index + 1) false := by
  rw [FindTextureSlot.loop]; simp [hi, he, ht]

theorem FindTextureSlot_loop_skip (ids : List TEXTURE_INFO) (n : Nat) (tag : String)
    (slot : Int) (d : Nat) : ∀ (index : Nat), index + d ≤ n →
    (∀ k, index ≤ k → k < index + d → ∃ e, ids[k]? = some e ∧ e.tag ≠ tag) →
    FindTextureSlot.loop ids n tag slot index false
      = FindTextureSlot.loop ids n tag slot (index + d) false := by
  induction d with
  | zero => intro index _ _; rfl
  | succ d ih =>
    intro index hle hall
    obtain ⟨e, he, ht⟩ := hall index (Nat.le_refl _) (by omega)
    rw [FindTextureSlot_loop_miss ids n tag slot index e (by omega) he ht,
      ih (index + 1) (by omega) (fun k h1 h2 => hall k (by omega) (by omega))]
    congr 1; omega

/-- Entries below the count of a well-formed array exist and belong to the
registry. -/
theorem registry_entry (ids : List TEXTURE_INFO) (n k : Nat) (hwf : n ≤ ids.length)
    (hk : k < n) : ∃ e, ids[k]? = some e ∧ e ∈ ids.take n := by
  have hlt : k < ids.length := by omega
  refine ⟨ids[k], List.getElem?_eq_getElem hlt, ?_⟩
  rw [List.mem_take_iff_getElem]
  exact ⟨k, by simp [hk, hlt], rfl⟩

/-- A tag carried by a registered texture has a first occurrence. -/
theorem first_occurrence (ids : List TEXTURE_INFO) (n : Nat) (tag : String)
    (h : ∃ e ∈ ids.take n, e.tag = tag) :
    ∃ j e, j < n ∧ ids[j]? = some e ∧ e.tag = tag ∧
      ∀ k, k < j → ∃ x, ids[k]? = some x ∧ x.tag ≠ tag := by
  classical
  have hex : ∃ j, ∃ e, j < n ∧ ids[j]? = some e ∧ e.tag = tag := by
    obtain ⟨e, hmem, ht⟩ := h
    rw [List.mem_take_iff_getElem] at hmem
    obtain ⟨i, hi, rfl⟩ := hmem
    have hi2 : i < n ∧ i < ids.length := by simpa [Nat.lt_min] using hi
    exact ⟨i, ids[i], hi2.1, List.getElem?_eq_getElem hi2.2, ht⟩
  refine ⟨Nat.find hex, ?_⟩
  obtain ⟨e, hj, he, ht⟩ := Nat.find_spec hex
  refine ⟨e, hj, he, ht, ?_⟩
  intro k hk
  have hklen : k < ids.length := by
    have := (List.getElem?_eq_some_iff.mp he).1
    omega
  refine ⟨ids[k], List.getElem?_eq_getElem hklen, ?_⟩
  intro hkt
  exact Nat.find_min hex hk ⟨ids[k], by omega, List.getElem?_eq_getElem hklen, hkt⟩

theorem FindTextureID_loop_absent (ids : List TEXTURE_INFO) (n : Nat) (tag : String)
    (tid : Int) (hwf : n ≤ ids.length) (habs : ∀ e ∈ ids.take n, e.tag ≠ tag) :
    FindTextureID.loop ids n tag tid 0 false = some tid := by
  rw [FindTextureID_loop_skip ids n tag tid n 0 (by omega)]
  · exact FindTextureID_loop_end ids n tag tid (0 + n) (by omega)
  · intro k _ hk
    obtain ⟨e, he, hmem⟩ := registry_entry ids n k hwf (by omega)
    exact ⟨e, he, habs e hmem⟩

theorem FindTextureID_loop_first (ids : List TEXTURE_INFO) (n : Nat) (tag : String)
    (tid : Int) (j : Nat) (e : TEXTURE_INFO) (hj : j < n) (he : ids[j]? = some e)
    (ht : e.tag = tag) (hmin : ∀ k, k < j → ∃ x, ids[k]? = some x ∧ x.tag ≠ tag) :
    FindTextureID.loop ids n tag tid 0 false = some (toInt32 e.ID) := by
  rw [FindTextureID_loop_skip ids n tag tid j 0 (by omega)
    (fun k _ hk => hmin k (by omega))]
  exact FindTextureID_loop_hit ids n tag tid (0 + j) e (by omega) (by simpa using he) ht

theorem FindTextureSlot_loop_absent (ids : List TEXTURE_INFO) (n : Nat) (tag : String)
    (slot : Int) (hwf : n ≤ ids.length) (habs : ∀ e ∈ ids.take n, e.tag ≠ tag) :
    FindTextureSlot.loop ids n tag slot 0 false = some slot := by
  rw [FindTextureSlot_loop_skip ids n tag slot n 0 (by omega)]
  · exact FindTextureSlot_loop_end ids n tag slot (0 + n) (by omega)
  · intro k _ hk
    obtain ⟨e, he, hmem⟩ := registry_entry ids n k hwf (by omega)
    exact ⟨e, he, habs e hmem⟩

theorem FindTextureSlot_loop_first (ids : List TEXTURE_INFO) (n : Nat) (tag : String)
    (slot : Int) (j : Nat) (e : TEXTURE_INFO) (hj : j < n) (he : ids[j]? = some e)
    (ht : e.tag = tag) (hmin : ∀ k, k < j → ∃ x, ids[k]? = some x ∧ x.tag ≠ tag) :
    FindTextureSlot.loop ids n tag slot 0 false = some (j : Int) := by
  rw [FindTextureSlot_loop_skip ids n tag slot j 0 (by omega)
    (fun k _ hk => hmin k (by omega))]
  have := FindTextureSlot_loop_hit ids n tag slot (0 + j) e (by omega) (by simpa using he) ht
  simpa using this

/-! ### The binding and releasing loops -/

/-- The two calls `BindGLTextures` makes for the array entry at index `i`. -/
theorem BindGLTextures_loop_eq (ids : List TEXTURE_INFO) (n : Nat) (hwf : n ≤ ids.length)
    (d : Nat) : ∀ (i : Nat) (tr : List (Call R)), i + d = n →
    BindGLTextures.loop ids n i tr
      = some (tr ++ (List.enumFrom i ((ids.take n).drop i)).flatMap fun p =>
          [Call.glActiveTexture (GL_TEXTURE0 + p.1), Call.glBindTexture GL_TEXTURE_2D p.2.ID]) := by
  induction d with
  | zero =>
    intro i tr hi
    have hin : i = n := by omega
    subst hin
    rw [BindGLTextures.loop]
    simp [List.drop_eq_nil_of_le]
  | succ d ih =>
    intro i tr hi
    have hlt : i < n := by omega
    have hlen : i < ids.length := by omega
    have htake : i < (ids.take n).length := by simp; omega
    rw [BindGLTextures.loop, if_pos hlt, List.getElem?_eq_getElem hlen]
    simp only []
    rw [ih (i + 1) _ (by omega), List.drop_eq_getElem_cons htake, List.enumFrom_cons,
      List.flatMap_cons, List.getElem_take]
    simp

theorem DestroyGLTextures_loop_eq (ids : List TEXTURE_INFO) (n : Nat) (hwf : n ≤ ids.length)
    (d : Nat) : ∀ (i : Nat) (tr : List (Call R)), i + d = n →
    DestroyGLTextures.loop ids n i tr
      = some (tr ++ ((ids.take n).drop i).map fun e => Call.glDeleteTextures 1 e.ID) := by
  induction d with
  | zero =>
    intro i tr hi
    have hin : i = n := by omega
    subst hin
    rw [DestroyGLTextures.loop]
    simp [List.drop_eq_nil_of_le]
  | succ d ih =>
    intro i tr hi
    have hlt : i < n := by omega
    have hlen : i < ids.length := by omega
    have htake : i < (ids.take n).length := by simp; omega
    rw [DestroyGLTextures.loop, if_pos hlt, List.getElem?_eq_getElem hlen]
    simp only []
    rw [ih (i + 1) _ (by omega), List.drop_eq_getElem_cons htake, List.map_cons,
      List.getElem_take]
    simp

/-- Writing the entry at the count and incrementing the count appends to the
registry. -/
theorem take_set_succ (ids : List TEXTURE_INFO) (n : Nat) (x : TEXTURE_INFO)
    (h : n < ids.length) : (ids.set n x).take (n + 1) = ids.take n ++ [x] := by
  rw [List.set_eq_take_append_cons_drop, if_pos h]
  have hl : (List.take n ids).length = n := by simp; omega
  rw [List.take_append_eq_append_take, hl]
  simp [List.take_of_length_le, hl]

/-- What `SetTransformations` does: with a shader manager present it makes one
call, which hands to the "model" uniform what glm returns for
`translation * rotationZ * rotationY * rotationX * scale`, the products taken
from the left; without a shader manager it makes no call. -/
theorem SetTransformations_eq [Zero R] [One R] (F : FloatOps R) (sc : vec3 R)
    (x y z : R) (p : vec3 R) (s : State R) :
    SetTransformations F sc x y z p s
      = if s.m_pShaderManager = true then
          { s with trace := s.trace ++ [Call.setMat4Value "model"
              (F.mul (F.mul (F.mul (F.mul (F.translate p)
                (F.rotate (F.radians z) ⟨0, 0, 1⟩))
                (F.rotate (F.radians y) ⟨0, 1, 0⟩))
                (F.rotate (F.radians x) ⟨1, 0, 0⟩))
                (F.scale sc))] }
        else s := by
  simp only [SetTransformations, State.emit, g_ModelName]

/-! ### glm in 32-bit floating point -/

theorem glm.radians_zero : glm.radians 0 = 0 := by decide

theorem glm.radians_ninety : glm.radians (F32.ofNat 90) = halfPi := by decide

theorem glm.rotate_eq (L : CMath) (angle : F32) (v : vec3 F32) (c s n : F32)
    (hc : L.cos angle = c) (hs : L.sin angle = s) (hn : L.inversesqrt (glm.dot v v) = n) :
    glm.rotate L angle v = glm.rotation c s ⟨v.x * n, v.y * n, v.z * n⟩ := by
  simp only [glm.rotate, glm.normalize, hc, hs, hn]

theorem glm.dot_axisX : glm.dot ⟨1, 0, 0⟩ ⟨1, 0, 0⟩ = 1 := by decide

theorem glm.dot_axisY : glm.dot ⟨0, 1, 0⟩ ⟨0, 1, 0⟩ = 1 := by decide

theorem glm.dot_axisZ : glm.dot ⟨0, 0, 1⟩ ⟨0, 0, 1⟩ = 1 := by decide

theorem glm.rotation_zero_X :
    glm.rotation 1 0 ⟨(1 : F32) * 1, (0 : F32) * 1, (0 : F32) * 1⟩ = glm.identity := by decide
theorem glm.rotation_zero_Z :
    glm.rotation 1 0 ⟨(0 : F32) * 1, (0 : F32) * 1, (1 : F32) * 1⟩ = glm.identity := by decide
theorem glm.rotation_quarter_Y :
    glm.rotation cosHalfPi 1 ⟨(0 : F32) * 1, (1 : F32) * 1, (0 : F32) * 1⟩
      = ⟨⟨cosHalfPi, 0, F32.dyadic (-1) 0, 0⟩, ⟨0, F32.dyadic 16777215 24, 0, 0⟩,
         ⟨1, 0, cosHalfPi, 0⟩, ⟨0, 0, 0, 1⟩⟩ := by decide

theorem glm.example_product :
    glm.mul (glm.mul (glm.mul (glm.mul (glm.translate ⟨1, 0, 0⟩) glm.identity)
      ⟨⟨cosHalfPi, 0, F32.dyadic (-1) 0, 0⟩, ⟨0, F32.dyadic 16777215 24, 0, 0⟩,
         ⟨1, 0, cosHalfPi, 0⟩, ⟨0, 0, 0, 1⟩⟩) glm.identity) (glm.scale ⟨F32.ofNat 2, 1, 1⟩)
      = floatExample := by decide

theorem F32.units_zero : (0 : F32).units = 0 := by decide

theorem F32.units_one : (1 : F32).units = 2 ^ 149 := by decide

theorem floatExample_toRat :
    floatExample.toRat
      = ⟨⟨-12303662 / 2 ^ 47, 0, -2, 0⟩, ⟨0, 16777215 / 2 ^ 24, 0, 0⟩,
         ⟨1, 0, -12303662 / 2 ^ 48, 0⟩, ⟨1, 0, 0, 1⟩⟩ := by
  simp only [floatExample, mat4.toRat, vec4.toRat, F32.toRat, F32.dyadic, F32.units_zero,
    F32.units_one]
  norm_num

theorem exactExample_apply (x y z : ℚ) :
    exactExample.apply ⟨x, y, z⟩ = ⟨z + 1, y, -(2 * x)⟩ := by
  simp only [exactExample, mat4.apply]
  rw [vec3.mk.injEq]
  refine ⟨?_, ?_, ?_⟩ <;> ring

/-- The matrix glm computes for the example, over every math library that
returns the nearest `float` at the five arguments that arise. -/
theorem glm.example_upload (L : CMath)
    (hcos0 : L.cos 0 = 1) (hsin0 : L.sin 0 = 0)
    (hcos : L.cos halfPi = cosHalfPi) (hsin : L.sin halfPi = 1)
    (hunit : L.inversesqrt 1 = 1) :
    (glmOps L).mul ((glmOps L).mul ((glmOps L).mul ((glmOps L).mul
        ((glmOps L).translate ⟨1, 0, 0⟩)
        ((glmOps L).rotate ((glmOps L).radians 0) ⟨0, 0, 1⟩))
        ((glmOps L).rotate ((glmOps L).radians (F32.ofNat 90)) ⟨0, 1, 0⟩))
        ((glmOps L).rotate ((glmOps L).radians 0) ⟨1, 0, 0⟩))
        ((glmOps L).scale ⟨F32.ofNat 2, 1, 1⟩)
      = floatExample := by
  have hX : glm.rotate L 0 ⟨1, 0, 0⟩ = glm.identity := by
    rw [glm.rotate_eq L 0 ⟨1, 0, 0⟩ 1 0 1 hcos0 hsin0 (by rw [glm.dot_axisX]; exact hunit)]
    exact glm.rotation_zero_X
  have hZ : glm.rotate L 0 ⟨0, 0, 1⟩ = glm.identity := by
    rw [glm.rotate_eq L 0 ⟨0, 0, 1⟩ 1 0 1 hcos0 hsin0 (by rw [glm.dot_axisZ]; exact hunit)]
    exact glm.rotation_zero_Z
  have hY : glm.rotate L halfPi ⟨0, 1, 0⟩
      = ⟨⟨cosHalfPi, 0, F32.dyadic (-1) 0, 0⟩, ⟨0, F32.dyadic 16777215 24, 0, 0⟩,
         ⟨1, 0, cosHalfPi, 0⟩, ⟨0, 0, 0, 1⟩⟩ := by
    rw [glm.rotate_eq L halfPi ⟨0, 1, 0⟩ cosHalfPi 1 1 hcos hsin
      (by rw [glm.dot_axisY]; exact hunit)]
    exact glm.rotation_quarter_Y
  simp only [glmOps, glm.radians_zero, glm.radians_ninety, hX, hY, hZ]
  exact glm.example_product

/-! ### The claims -/

/-- C1 as stated fails at its own example.  In 32-bit floating point, for scale
(2,1,1), rotation (0,90,0) and position (1,0,0), `glm::radians(90.0f)` is the
`float` next above pi/2, whose cosine is about -4.37e-8 and not 0; the matrix
uploaded to "model" has the columns (-12303662 * 2^-47, 0, -2, 0),
(0, 1 - 2^-24, 0, 0), (1, 0, -12303662 * 2^-48, 0), (1, 0, 0, 1).  It is not
the matrix that sends (x, y, z) to (z + 1, y, -2x): the point (1, 1, 1) does
not go to (2, 1, -2). -/
theorem C1_float_example_counterexample :
    ∃ M : mat4 F32,
      SetTransformations (glmOps exampleMath) ⟨F32.ofNat 2, 1, 1⟩ 0 (F32.ofNat 90) 0
          ⟨1, 0, 0⟩ (construct F32 true 16)
        = { construct F32 true 16 with trace := [Call.setMat4Value "model" M] } ∧
      M.toRat = ⟨⟨-12303662 / 2 ^ 47, 0, -2, 0⟩, ⟨0, 16777215 / 2 ^ 24, 0, 0⟩,
         ⟨1, 0, -12303662 / 2 ^ 48, 0⟩, ⟨1, 0, 0, 1⟩⟩ ∧
      M.toRat ≠ exactExample ∧
      (∀ x y z : ℚ, exactExample.apply ⟨x, y, z⟩ = ⟨z + 1, y, -(2 * x)⟩) ∧
      M.toRat.apply ⟨1, 1, 1⟩ ≠ ⟨1 + 1, 1, -(2 * 1)⟩ := by
  refine ⟨floatExample, ?_, floatExample_toRat, ?_, exactExample_apply, ?_⟩
  · have hptr : (construct F32 true 16).m_pShaderManager = true := rfl
    rw [SetTransformations_eq, if_pos hptr,
      glm.example_upload exampleMath (by decide) (by decide) (by decide) (by decide)
        (by decide)]
    rfl
  · rw [floatExample_toRat, exactExample]
    intro h
    have h2 := congrArg (fun m : mat4 ℚ => m.c1.y) h
    norm_num at h2
  · rw [floatExample_toRat]
    intro h
    have h2 := congrArg (fun v : vec3 ℚ => v.y) h
    norm_num [mat4.apply] at h2

/-- C1, amended: with a shader manager present, for every scale vector,
rotation angles and position, `SetTransformations` makes one call, which
uploads to "model" what glm returns for
translate(p) * rotate(radians(z), Z) * rotate(radians(y), Y) *
rotate(radians(x), X) * scale(s), the products taken from the left in that
order.  glm computes in 32-bit floating point, so the matrix is the
mathematical product only up to rounding: for scale (2,1,1), rotation (0,90,0)
and position (1,0,0), over a math library that returns the nearest `float` for
the cosine and sine of 0 and of `radians(90.0f)`, the uploaded matrix has the
columns (-12303662 * 2^-47, 0, -2, 0), (0, 1 - 2^-24, 0, 0),
(1, 0, -12303662 * 2^-48, 0), (1, 0, 0, 1), every entry within 2^-23 of the
matrix that sends (x, y, z) to (z + 1, y, -2x). -/
theorem C1_SetTransformations_float (L : CMath) (s : State F32)
    (hptr : s.m_pShaderManager = true)
    (hcos0 : L.cos 0 = 1) (hsin0 : L.sin 0 = 0)
    (hcos : L.cos halfPi = cosHalfPi) (hsin : L.sin halfPi = 1)
    (hunit : L.inversesqrt 1 = 1) :
    (∀ (F : FloatOps F32) (sc : vec3 F32) (x y z : F32) (p : vec3 F32),
      SetTransformations F sc x y z p s
        = { s with trace := s.trace ++ [Call.setMat4Value "model"
              (F.mul (F.mul (F.mul (F.mul (F.translate p)
                (F.rotate (F.radians z) ⟨0, 0, 1⟩))
                (F.rotate (F.radians y) ⟨0, 1, 0⟩))
                (F.rotate (F.radians x) ⟨1, 0, 0⟩))
                (F.scale sc))] }) ∧
    (glmOps L).radians (F32.ofNat 90) = halfPi ∧
    SetTransformations (glmOps L) ⟨F32.ofNat 2, 1, 1⟩ 0 (F32.ofNat 90) 0 ⟨1, 0, 0⟩ s
      = { s with trace := s.trace ++ [Call.setMat4Value "model" floatExample] } ∧
    floatExample.toRat = ⟨⟨-12303662 / 2 ^ 47, 0, -2, 0⟩, ⟨0, 16777215 / 2 ^ 24, 0, 0⟩,
         ⟨1, 0, -12303662 / 2 ^ 48, 0⟩, ⟨1, 0, 0, 1⟩⟩ ∧
    mat4.within (1 / 2 ^ 23) floatExample.toRat exactExample ∧
    (∀ x y z : ℚ, exactExample.apply ⟨x, y, z⟩ = ⟨z + 1, y, -(2 * x)⟩) := by
  refine ⟨?_, glm.radians_ninety, ?_, floatExample_toRat, ?_, exactExample_apply⟩
  · intro F sc x y z p
    rw [SetTransformations_eq, if_pos hptr]
  · rw [SetTransformations_eq, if_pos hptr, glm.example_upload L hcos0 hsin0 hcos hsin hunit]
  · rw [floatExample_toRat]
    norm_num [mat4.within, vec4.within, exactExample]

/-- C1 (amended) on a freshly constructed scene manager, with the math
library of the example. -/
theorem C1_SetTransformations_float_witness :
    (∀ (F : FloatOps F32) (sc : vec3 F32) (x y z : F32) (p : vec3 F32),
      SetTransformations F sc x y z p (construct F32 true 16)
        = { construct F32 true 16 with
            trace := (construct F32 true 16).trace ++ [Call.setMat4Value "model"
              (F.mul (F.mul (F.mul (F.mul (F.translate p)
                (F.rotate (F.radians z) ⟨0, 0, 1⟩))
                (F.rotate (F.radians y) ⟨0, 1, 0⟩))
                (F.rotate (F.radians x) ⟨1, 0, 0⟩))
                (F.scale sc))] }) ∧
    (glmOps exampleMath).radians (F32.ofNat 90) = halfPi ∧
    SetTransformations (glmOps exampleMath) ⟨F32.ofNat 2, 1, 1⟩ 0 (F32.ofNat 90) 0 ⟨1, 0, 0⟩
        (construct F32 true 16)
      = { construct F32 true 16 with
          trace := (construct F32 true 16).trace ++ [Call.setMat4Value "model" floatExample] } ∧
    floatExample.toRat = ⟨⟨-12303662 / 2 ^ 47, 0, -2, 0⟩, ⟨0, 16777215 / 2 ^ 24, 0, 0⟩,
         ⟨1, 0, -12303662 / 2 ^ 48, 0⟩, ⟨1, 0, 0, 1⟩⟩ ∧
    mat4.within (1 / 2 ^ 23) floatExample.toRat exactExample ∧
    (∀ x y z : ℚ, exactExample.apply ⟨x, y, z⟩ = ⟨z + 1, y, -(2 * x)⟩) :=
  C1_SetTransformations_float exampleMath (construct F32 true 16) rfl (by decide) (by decide)
    (by decide) (by decide) (by decide)

/-- C2 (the code departs from the claim): on the one-material list holding
only "wood", `FindMaterial` asked for the absent tag "glass" returns `true`,
and the output material is left as it was. -/
theorem C2_FindMaterial_absent_reports_found :
    (∀ m ∈ sampleState.m_objectMaterials, m.tag ≠ "glass") ∧
    FindMaterial sampleState "glass" staleMaterial = (true, staleMaterial) := by
  constructor
  · simp [sampleState, woodMaterial]
  · simp [FindMaterial, FindMaterial.loop, sampleState, woodMaterial]

/-- C3 (the code departs from the claim): with the one-material list holding
only "wood", `SetShaderMaterial("glass")` is not a no-op: it sets all five
`material.*` uniforms, from the uninitialised local. -/
theorem C3_SetShaderMaterial_absent_sets_uniforms :
    (∀ m ∈ sampleState.m_objectMaterials, m.tag ≠ "glass") ∧
    SetShaderMaterial "glass" staleMaterial sampleState
      = some { sampleState with trace := [
          Call.setVec3Value "material.ambientColor" staleMaterial.ambientColor,
          Call.setFloatValue "material.ambientStrength" staleMaterial.ambientStrength,
          Call.setVec3Value "material.diffuseColor" staleMaterial.diffuseColor,
          Call.setVec3Value "material.specularColor" staleMaterial.specularColor,
          Call.setFloatValue "material.shininess" staleMaterial.shininess] } ∧
    SetShaderMaterial "glass" staleMaterial sampleState ≠ some sampleState := by
  have h : SetShaderMaterial "glass" staleMaterial sampleState
      = some { sampleState with trace := [
          Call.setVec3Value "material.ambientColor" staleMaterial.ambientColor,
          Call.setFloatValue "material.ambientStrength" staleMaterial.ambientStrength,
          Call.setVec3Value "material.diffuseColor" staleMaterial.diffuseColor,
          Call.setVec3Value "material.specularColor" staleMaterial.specularColor,
          Call.setFloatValue "material.shininess" staleMaterial.shininess] } := by
    simp [SetShaderMaterial, FindMaterial, FindMaterial.loop, sampleState, woodMaterial,
      State.emit]
  refine ⟨by simp [sampleState, woodMaterial], h, ?_⟩
  rw [h]
  simp [sampleState]

/-- C4: in a well-formed scene manager, for a tag that no registered texture
carries (in particular when no texture is registered), `FindTextureID` and
`FindTextureSlot` both return -1.  Both are functions of the state that return
a value only: they terminate and leave the registry as it is. -/
theorem C4_find_absent_tag (s : State R) (tag : String) (hwf : s.WellFormed)
    (habs : ∀ e ∈ s.registry, e.tag ≠ tag) :
    FindTextureID s tag = some (-1) ∧ FindTextureSlot s tag = some (-1) :=
  ⟨FindTextureID_loop_absent s.m_textureIDs s.m_loadedTextures tag (-1) hwf habs,
   FindTextureSlot_loop_absent s.m_textureIDs s.m_loadedTextures tag (-1) hwf habs⟩

/-- C4 on a registry of two textures and on the empty registry. -/
theorem C4_find_absent_tag_witness :
    (FindTextureID sampleState "bubbles" = some (-1) ∧
      FindTextureSlot sampleState "bubbles" = some (-1)) ∧
    (FindTextureID (construct ℚ true 16) "table" = some (-1) ∧
      FindTextureSlot (construct ℚ true 16) "table" = some (-1)) :=
  ⟨C4_find_absent_tag sampleState "bubbles" (by decide)
      (by simp [State.registry, sampleState]),
   C4_find_absent_tag (construct ℚ true 16) "table" (by simp [State.WellFormed, construct])
      (by simp [State.registry, construct])⟩

/-! ### Facts about `CreateGLTexture` -/

/-- The successful path of `CreateGLTexture`: the state it returns, and what
the calls it makes contain. -/
theorem CreateGLTexture_registers (filename tag : String) (img : Image) (textureID : Nat)
    (s : State R) (hroom : s.m_loadedTextures < s.m_textureIDs.length)
    (hch : img.colorChannels = 3 ∨ img.colorChannels = 4) :
    ∃ tr : List (Call R),
      CreateGLTexture filename tag (some img) textureID s
        = some (true,
            { s with
              m_textureIDs := s.m_textureIDs.set s.m_loadedTextures ⟨tag, textureID⟩
              m_loadedTextures := s.m_loadedTextures + 1
              trace := s.trace ++ tr }) ∧
      Call.glGenTextures 1 textureID ∈ tr ∧
      ∀ n name, Call.glDeleteTextures n name ∉ tr := by
  rcases hch with h | h
  · refine ⟨[Call.stbi_set_flip_vertically_on_load true, Call.stbi_load filename,
        Call.glGenTextures 1 textureID, Call.glBindTexture GL_TEXTURE_2D textureID,
        Call.glTexParameteri GL_TEXTURE_2D GL_TEXTURE_WRAP_S GL_REPEAT,
        Call.glTexParameteri GL_TEXTURE_2D GL_TEXTURE_WRAP_T GL_REPEAT,
        Call.glTexParameteri GL_TEXTURE_2D GL_TEXTURE_MIN_FILTER GL_LINEAR,
        Call.glTexParameteri GL_TEXTURE_2D GL_TEXTURE_MAG_FILTER GL_LINEAR,
        Call.glTexImage2D GL_TEXTURE_2D 0 GL_RGB8 img.width img.height 0 GL_RGB
          GL_UNSIGNED_BYTE,
        Call.glGenerateMipmap GL_TEXTURE_2D, Call.stbi_image_free,
        Call.glBindTexture GL_TEXTURE_2D 0], ?_, ?_, ?_⟩
    · simp [CreateGLTexture, State.emit, h, hroom]
    · simp
    · simp
  · have h3 : img.colorChannels ≠ 3 := by omega
    refine ⟨[Call.stbi_set_flip_vertically_on_load true, Call.stbi_load filename,
        Call.glGenTextures 1 textureID, Call.glBindTexture GL_TEXTURE_2D textureID,
        Call.glTexParameteri GL_TEXTURE_2D GL_TEXTURE_WRAP_S GL_REPEAT,
        Call.glTexParameteri GL_TEXTURE_2D GL_TEXTURE_WRAP_T GL_REPEAT,
        Call.glTexParameteri GL_TEXTURE_2D GL_TEXTURE_MIN_FILTER GL_LINEAR,
        Call.glTexParameteri GL_TEXTURE_2D GL_TEXTURE_MAG_FILTER GL_LINEAR,
        Call.glTexImage2D GL_TEXTURE_2D 0 GL_RGBA8 img.width img.height 0 GL_RGBA
          GL_UNSIGNED_BYTE,
        Call.glGenerateMipmap GL_TEXTURE_2D, Call.stbi_image_free,
        Call.glBindTexture GL_TEXTURE_2D 0], ?_, ?_, ?_⟩
    · simp [CreateGLTexture, State.emit, h, hroom]
    · simp
    · simp

/-- The failing paths of `CreateGLTexture`: nothing but the trace changes. -/
theorem CreateGLTexture_rejects (filename tag : String) (image : Option Image)
    (textureID : Nat) (s : State R)
    (hbad : ∀ img, image = some img → img.colorChannels ≠ 3 ∧ img.colorChannels ≠ 4) :
    ∃ tr : List (Call R),
      CreateGLTexture filename tag image textureID s
        = some (false, { s with trace := s.trace ++ tr }) := by
  cases image with
  | none =>
    exact ⟨[Call.stbi_set_flip_vertically_on_load true, Call.stbi_load filename],
      by simp [CreateGLTexture, State.emit]⟩
  | some img =>
    obtain ⟨h3, h4⟩ := hbad img rfl
    refine ⟨[Call.stbi_set_flip_vertically_on_load true, Call.stbi_load filename,
        Call.glGenTextures 1 textureID, Call.glBindTexture GL_TEXTURE_2D textureID,
        Call.glTexParameteri GL_TEXTURE_2D GL_TEXTURE_WRAP_S GL_REPEAT,
        Call.glTexParameteri GL_TEXTURE_2D GL_TEXTURE_WRAP_T GL_REPEAT,
        Call.glTexParameteri GL_TEXTURE_2D GL_TEXTURE_MIN_FILTER GL_LINEAR,
        Call.glTexParameteri GL_TEXTURE_2D GL_TEXTURE_MAG_FILTER GL_LINEAR], ?_⟩
    simp [CreateGLTexture, State.emit, h3, h4]

/-- After a successful registration the lookups find the new entry when the
tag was not registered before. -/
theorem lookup_new_tag (ids : List TEXTURE_INFO) (n : Nat) (tag : String) (textureID : Nat)
    (hroom : n < ids.length) (hnew : ∀ e ∈ ids.take n, e.tag ≠ tag) :
    FindTextureID.loop (ids.set n ⟨tag, textureID⟩) (n + 1) tag (-1) 0 false
        = some (toInt32 textureID) ∧
    FindTextureSlot.loop (ids.set n ⟨tag, textureID⟩) (n + 1) tag (-1) 0 false
        = some (n : Int) := by
  have hmin : ∀ k, k < n →
      ∃ x, (ids.set n ⟨tag, textureID⟩)[k]? = some x ∧ x.tag ≠ tag := by
    intro k hk
    obtain ⟨e, he, hmem⟩ := registry_entry ids n k (Nat.le_of_lt hroom) hk
    refine ⟨e, ?_, hnew e hmem⟩
    rw [List.getElem?_set_ne (by omega)]
    exact he
  have hset : (ids.set n ⟨tag, textureID⟩)[n]? = some ⟨tag, textureID⟩ :=
    List.getElem?_set_self hroom
  exact ⟨FindTextureID_loop_first _ (n + 1) tag (-1) n _ (by omega) hset rfl hmin,
    FindTextureSlot_loop_first _ (n + 1) tag (-1) n _ (by omega) hset rfl hmin⟩

/-- After a successful registration of a tag that was registered before, the
lookups still find the first earlier entry. -/
theorem lookup_old_tag (ids : List TEXTURE_INFO) (n : Nat) (tag : String) (x : TEXTURE_INFO)
    (hdup : ∃ e ∈ ids.take n, e.tag = tag) :
    ∃ j e, j < n ∧ ids[j]? = some e ∧ e.tag = tag ∧
      (∀ k, k < j → ∃ y, ids[k]? = some y ∧ y.tag ≠ tag) ∧
      FindTextureID.loop ids n tag (-1) 0 false = some (toInt32 e.ID) ∧
      FindTextureSlot.loop ids n tag (-1) 0 false = some (j : Int) ∧
      FindTextureID.loop (ids.set n x) (n + 1) tag (-1) 0 false = some (toInt32 e.ID) ∧
      FindTextureSlot.loop (ids.set n x) (n + 1) tag (-1) 0 false = some (j : Int) := by
  obtain ⟨j, e, hj, he, ht, hmin⟩ := first_occurrence ids n tag hdup
  have he2 : (ids.set n x)[j]? = some e := by
    rw [List.getElem?_set_ne (by omega)]; exact he
  have hmin2 : ∀ k, k < j → ∃ y, (ids.set n x)[k]? = some y ∧ y.tag ≠ tag := by
    intro k hk
    obtain ⟨y, hy, hyt⟩ := hmin k hk
    exact ⟨y, by rw [List.getElem?_set_ne (by omega)]; exact hy, hyt⟩
  exact ⟨j, e, hj, he, ht, hmin,
    FindTextureID_loop_first ids n tag (-1) j e hj he ht hmin,
    FindTextureSlot_loop_first ids n tag (-1) j e hj he ht hmin,
    FindTextureID_loop_first _ (n + 1) tag (-1) j e (by omega) he2 ht hmin2,
    FindTextureSlot_loop_first _ (n + 1) tag (-1) j e (by omega) he2 ht hmin2⟩

theorem toInt32_small (n : Nat) (h : n < 2 ^ 31) : toInt32 n = (n : Int) := by
  have hmod : n % 2 ^ 32 = n := Nat.mod_eq_of_lt (by omega)
  unfold toInt32
  rw [hmod, if_pos h]

theorem toInt32_large (n : Nat) (h1 : 2 ^ 31 ≤ n) (h2 : n < 2 ^ 32) :
    toInt32 n = (n : Int) - 2 ^ 32 := by
  have hmod : n % 2 ^ 32 = n := Nat.mod_eq_of_lt h2
  unfold toInt32
  rw [hmod, if_neg (by omega)]

/-- C5 as stated fails on a full array: with 16 textures in the 16-entry
`m_textureIDs`, `CreateGLTexture` for a new tag and a 3-channel image does not
return `true`; it writes past the end of the array. -/
theorem C5_full_registry_counterexample :
    fullState.WellFormed ∧ fullState.m_loadedTextures = 16 ∧
    fullState.m_textureIDs.length = 16 ∧
    (∀ e ∈ fullState.registry, e.tag ≠ "extra17") ∧
    CreateGLTexture "textures/extra.jpg" "extra17" (some ⟨64, 64, 3⟩) 17 fullState = none := by
  refine ⟨by decide, rfl, rfl, ?_, ?_⟩
  · simp [State.registry, fullState]
  · simp [CreateGLTexture, State.emit, fullState]

/-- C5, amended: when the registry holds `n` textures and `n` is below the
size of the `m_textureIDs` array, the tag is not yet registered and the image
decodes with 3 or 4 channels, `CreateGLTexture` returns `true`; afterwards the
registry holds `n + 1` textures, the earlier `n` entries unchanged and the new
entry last, `FindTextureID(tag)` returns the generated texture name as an
`int` (the name itself when it is below 2^31) and `FindTextureSlot(tag)`
returns `n`. -/
theorem C5_CreateGLTexture_success (filename tag : String) (img : Image) (textureID : Nat)
    (s : State R) (hroom : s.m_loadedTextures < s.m_textureIDs.length)
    (hnew : ∀ e ∈ s.registry, e.tag ≠ tag)
    (hch : img.colorChannels = 3 ∨ img.colorChannels = 4) :
    ∃ s' : State R,
      CreateGLTexture filename tag (some img) textureID s = some (true, s') ∧
      s'.m_loadedTextures = s.m_loadedTextures + 1 ∧
      s'.m_textureIDs.length = s.m_textureIDs.length ∧
      s'.registry = s.registry ++ [⟨tag, textureID⟩] ∧
      FindTextureID s' tag = some (toInt32 textureID) ∧
      (textureID < 2 ^ 31 → FindTextureID s' tag = some (textureID : Int)) ∧
      FindTextureSlot s' tag = some (s.m_loadedTextures : Int) := by
  obtain ⟨tr, hc, _, _⟩ := CreateGLTexture_registers filename tag img textureID s hroom hch
  obtain ⟨hid, hslot⟩ := lookup_new_tag s.m_textureIDs s.m_loadedTextures tag textureID
    hroom hnew
  refine ⟨_, hc, rfl, ?_, ?_, hid, ?_, hslot⟩
  · simp
  · exact take_set_succ s.m_textureIDs s.m_loadedTextures ⟨tag, textureID⟩ hroom
  · intro hsmall
    rw [← toInt32_small textureID hsmall]
    exact hid

/-- C5 (amended) on the two-texture registry: a third texture, tag "bubbles",
RGBA image, texture name 3. -/
theorem C5_CreateGLTexture_success_witness :
    ∃ s' : State ℚ,
      CreateGLTexture "textures/bubbles.png" "bubbles" (some ⟨32, 32, 4⟩) 3 sampleState
        = some (true, s') ∧
      s'.m_loadedTextures = 2 + 1 ∧
      s'.m_textureIDs.length = 16 ∧
      s'.registry = [⟨"table", 1⟩, ⟨"beerBody", 2⟩] ++ [⟨"bubbles", 3⟩] ∧
      FindTextureID s' "bubbles" = some (toInt32 3) ∧
      ((3 : Nat) < 2 ^ 31 → FindTextureID s' "bubbles" = some ((3 : Nat) : Int)) ∧
      FindTextureSlot s' "bubbles" = some ((2 : Nat) : Int) :=
  C5_CreateGLTexture_success "textures/bubbles.png" "bubbles" ⟨32, 32, 4⟩ 3 sampleState
    (by decide) (by simp [State.registry, sampleState]) (Or.inr rfl)

/-- C6: when the image cannot be decoded, or decodes with a channel count
other than 3 and 4, `CreateGLTexture` returns `false` and the registry is as
before: same array, same count, and every lookup answers as before; a tag that
was not registered is still not found. -/
theorem C6_CreateGLTexture_failure (filename tag : String) (image : Option Image)
    (textureID : Nat) (s : State R)
    (hbad : ∀ img, image = some img → img.colorChannels ≠ 3 ∧ img.colorChannels ≠ 4) :
    ∃ s' : State R,
      CreateGLTexture filename tag image textureID s = some (false, s') ∧
      s'.m_textureIDs = s.m_textureIDs ∧
      s'.m_loadedTextures = s.m_loadedTextures ∧
      s'.registry = s.registry ∧
      (∀ t, FindTextureID s' t = FindTextureID s t ∧
        FindTextureSlot s' t = FindTextureSlot s t) ∧
      (s.WellFormed → (∀ e ∈ s.registry, e.tag ≠ tag) →
        FindTextureID s' tag = some (-1) ∧ FindTextureSlot s' tag = some (-1)) := by
  obtain ⟨tr, hc⟩ := CreateGLTexture_rejects filename tag image textureID s hbad
  refine ⟨_, hc, rfl, rfl, rfl, fun t => ⟨rfl, rfl⟩, fun hwf habs => ?_⟩
  exact ⟨FindTextureID_loop_absent s.m_textureIDs s.m_loadedTextures tag (-1) hwf habs,
    FindTextureSlot_loop_absent s.m_textureIDs s.m_loadedTextures tag (-1) hwf habs⟩

/-- C6 for a one-channel image offered under the unregistered tag "gray". -/
theorem C6_CreateGLTexture_failure_witness :
    ∃ s' : State ℚ,
      CreateGLTexture "textures/gray.png" "gray" (some ⟨8, 8, 1⟩) 3 sampleState
        = some (false, s') ∧
      s'.m_textureIDs = sampleState.m_textureIDs ∧
      s'.m_loadedTextures = sampleState.m_loadedTextures ∧
      s'.registry = sampleState.registry ∧
      (∀ t, FindTextureID s' t = FindTextureID sampleState t ∧
        FindTextureSlot s' t = FindTextureSlot sampleState t) ∧
      FindTextureID s' "gray" = some (-1) ∧ FindTextureSlot s' "gray" = some (-1) := by
  obtain ⟨s', h1, h2, h3, h4, h5, h6⟩ := C6_CreateGLTexture_failure "textures/gray.png"
    "gray" (some ⟨8, 8, 1⟩) 3 sampleState (by intro img h; cases h; decide)
  exact ⟨s', h1, h2, h3, h4, h5,
    h6 (by decide) (by simp [State.registry, sampleState])⟩

/-- C7 as stated fails: "table" is registered with texture name 1; a second
`CreateGLTexture` for "table" (3-channel image, texture name 7) is not
rejected (it returns `true` and the registry grows), and it does not
overwrite: `FindTextureID("table")` still returns 1, "table" now occurs twice,
and no `glDeleteTextures` call was made. -/
theorem C7_duplicate_tag_counterexample :
    (∃ e ∈ sampleState.registry, e.tag = "table") ∧
    ∃ s' : State ℚ,
      CreateGLTexture "textures/other.jpg" "table" (some ⟨8, 8, 3⟩) 7 sampleState
        = some (true, s') ∧
      s'.registry = [⟨"table", 1⟩, ⟨"beerBody", 2⟩, ⟨"table", 7⟩] ∧
      s'.registry ≠ sampleState.registry ∧
      FindTextureID s' "table" = some 1 ∧
      FindTextureID s' "table" ≠ some 7 ∧
      (s'.registry.filter fun e => e.tag = "table").length = 2 ∧
      ∀ n name, Call.glDeleteTextures n name ∉ s'.trace := by
  refine ⟨⟨⟨"table", 1⟩, by simp [State.registry, sampleState], rfl⟩, ?_⟩
  obtain ⟨tr, hc, _, hdel⟩ := CreateGLTexture_registers (R := ℚ) "textures/other.jpg" "table"
    ⟨8, 8, 3⟩ 7 sampleState (by decide) (Or.inl rfl)
  have hfind : FindTextureID.loop (sampleState.m_textureIDs.set 2 ⟨"table", 7⟩) 3 "table"
      (-1) 0 false = some 1 :=
    FindTextureID_loop_hit _ 3 "table" (-1) 0 ⟨"table", 1⟩ (by decide) rfl rfl
  refine ⟨_, hc, ?_, ?_, hfind, ?_, ?_, ?_⟩
  · simp [State.registry, sampleState]
  · simp [State.registry, sampleState]
  · show FindTextureID.loop (sampleState.m_textureIDs.set 2 ⟨"table", 7⟩) 3 "table"
      (-1) 0 false ≠ some 7
    rw [hfind]; decide
  · simp [State.registry, sampleState]
  · intro n name
    simpa [sampleState] using hdel n name

/-- C7, amended: when the tag is already registered and the array has room, a
second `CreateGLTexture` with the same tag and a 3- or 4-channel image is
accepted: it returns `true` and appends a new entry with that tag after the
old ones.  `FindTextureID(tag)` and `FindTextureSlot(tag)` answer as before the
call, with the texture name and index of the first entry carrying the tag; the
tag occurs once more than before; no `glDeleteTextures` call is made. -/
theorem C7_duplicate_tag_appends (filename tag : String) (img : Image) (textureID : Nat)
    (s : State R) (hroom : s.m_loadedTextures < s.m_textureIDs.length)
    (hdup : ∃ e ∈ s.registry, e.tag = tag)
    (hch : img.colorChannels = 3 ∨ img.colorChannels = 4) :
    ∃ (s' : State R) (tr : List (Call R)) (j : Nat) (e : TEXTURE_INFO),
      CreateGLTexture filename tag (some img) textureID s = some (true, s') ∧
      s'.registry = s.registry ++ [⟨tag, textureID⟩] ∧
      j < s.m_loadedTextures ∧ s.m_textureIDs[j]? = some e ∧ e.tag = tag ∧
      (∀ k, k < j → ∃ y, s.m_textureIDs[k]? = some y ∧ y.tag ≠ tag) ∧
      FindTextureID s tag = some (toInt32 e.ID) ∧
      FindTextureSlot s tag = some (j : Int) ∧
      FindTextureID s' tag = some (toInt32 e.ID) ∧
      FindTextureSlot s' tag = some (j : Int) ∧
      (s'.registry.filter fun x => x.tag = tag).length
        = (s.registry.filter fun x => x.tag = tag).length + 1 ∧
      s'.trace = s.trace ++ tr ∧
      ∀ n name, Call.glDeleteTextures n name ∉ tr := by
  obtain ⟨tr, hc, _, hdel⟩ := CreateGLTexture_registers filename tag img textureID s hroom hch
  obtain ⟨j, e, hj, he, ht, hmin, h1, h2, h3, h4⟩ :=
    lookup_old_tag s.m_textureIDs s.m_loadedTextures tag ⟨tag, textureID⟩ hdup
  have hreg : (s.m_textureIDs.set s.m_loadedTextures ⟨tag, textureID⟩).take
      (s.m_loadedTextures + 1) = s.m_textureIDs.take s.m_loadedTextures ++ [⟨tag, textureID⟩] :=
    take_set_succ s.m_textureIDs s.m_loadedTextures ⟨tag, textureID⟩ hroom
  refine ⟨_, tr, j, e, hc, hreg, hj, he, ht, hmin, h1, h2, h3, h4, ?_, rfl, hdel⟩
  simp only [State.registry]
  rw [hreg]
  simp

/-- C7 (amended) on the two-texture registry, re-registering "table". -/
theorem C7_duplicate_tag_appends_witness :
    ∃ (s' : State ℚ) (tr : List (Call ℚ)) (j : Nat) (e : TEXTURE_INFO),
      CreateGLTexture "textures/other.jpg" "table" (some ⟨8, 8, 3⟩) 7 sampleState
        = some (true, s') ∧
      s'.registry = sampleState.registry ++ [⟨"table", 7⟩] ∧
      j < sampleState.m_loadedTextures ∧ sampleState.m_textureIDs[j]? = some e ∧
      e.tag = "table" ∧
      (∀ k, k < j → ∃ y, sampleState.m_textureIDs[k]? = some y ∧ y.tag ≠ "table") ∧
      FindTextureID sampleState "table" = some (toInt32 e.ID) ∧
      FindTextureSlot sampleState "table" = some (j : Int) ∧
      FindTextureID s' "table" = some (toInt32 e.ID) ∧
      FindTextureSlot s' "table" = some (j : Int) ∧
      (s'.registry.filter fun x => x.tag = "table").length
        = (sampleState.registry.filter fun x => x.tag = "table").length + 1 ∧
      s'.trace = sampleState.trace ++ tr ∧
      ∀ n name, Call.glDeleteTextures n name ∉ tr :=
  C7_duplicate_tag_appends "textures/other.jpg" "table" ⟨8, 8, 3⟩ 7 sampleState
    (by decide) ⟨⟨"table", 1⟩, by simp [State.registry, sampleState], rfl⟩ (Or.inl rfl)

/-- C8 (the code departs from the claim): on a fresh scene manager, a
`CreateGLTexture` call whose image decodes with one channel generates texture
name 7 and returns `false`; the `DestroyGLTextures` call that follows makes no
call at all, so name 7 is never passed to `glDeleteTextures`. -/
theorem C8_rejected_handle_not_released :
    CreateGLTexture "textures/gray.png" "gray" (some ⟨8, 8, 1⟩) 7 (construct ℚ true 16)
      = some (false, rejectedState) ∧
    DestroyGLTextures rejectedState = some rejectedState ∧
    Call.glGenTextures 1 7 ∈ rejectedState.trace ∧
    ∀ n name, Call.glDeleteTextures n name ∉ rejectedState.trace := by
  refine ⟨?_, ?_, ?_, ?_⟩
  · simp [CreateGLTexture, State.emit, construct, rejectedState]
  · simp [DestroyGLTextures, DestroyGLTextures.loop, rejectedState, construct]
  · simp [rejectedState]
  · simp [rejectedState]

/-- What `DestroyGLTextures` does on a well-formed scene manager: one
`glDeleteTextures` call per registered texture, in registry order; nothing
else changes. -/
theorem DestroyGLTextures_eq (s : State R) (hwf : s.WellFormed) :
    DestroyGLTextures s
      = some { s with
          trace := s.trace ++ s.registry.map fun e => Call.glDeleteTextures 1 e.ID } := by
  have h := DestroyGLTextures_loop_eq (R := R) s.m_textureIDs s.m_loadedTextures hwf
    s.m_loadedTextures 0 s.trace (by omega)
  simp [DestroyGLTextures, h, State.registry]

/-- C9 as stated fails: on the registry of two textures the second
`DestroyGLTextures` call passes both texture names to `glDeleteTextures`
again, so two calls in a row do not leave the state one call leaves. -/
theorem C9_second_destroy_counterexample :
    DestroyGLTextures sampleState
      = some { sampleState with
          trace := [Call.glDeleteTextures 1 1, Call.glDeleteTextures 1 2] } ∧
    (DestroyGLTextures sampleState).bind DestroyGLTextures
      = some { sampleState with
          trace := [Call.glDeleteTextures 1 1, Call.glDeleteTextures 1 2,
            Call.glDeleteTextures 1 1, Call.glDeleteTextures 1 2] } ∧
    (DestroyGLTextures sampleState).bind DestroyGLTextures ≠ DestroyGLTextures sampleState := by
  have h1 : DestroyGLTextures sampleState
      = some { sampleState with
          trace := [Call.glDeleteTextures 1 1, Call.glDeleteTextures 1 2] } := by
    rw [DestroyGLTextures_eq sampleState (by decide)]
    simp [State.registry, sampleState]
  have h2 : (DestroyGLTextures sampleState).bind DestroyGLTextures
      = some { sampleState with
          trace := [Call.glDeleteTextures 1 1, Call.glDeleteTextures 1 2,
            Call.glDeleteTextures 1 1, Call.glDeleteTextures 1 2] } := by
    rw [h1, Option.some_bind, DestroyGLTextures_eq _ (by decide)]
    simp [State.registry, sampleState]
  refine ⟨h1, h2, ?_⟩
  rw [h2, h1]
  simp

/-- C9, amended: on a well-formed scene manager each of two
`DestroyGLTextures` calls in a row passes every registered texture name to
`glDeleteTextures` once, in registry order, so every name is passed twice in
all; neither call changes the array, the count or the materials.  The second
call is a no-op exactly when no texture is registered. -/
theorem C9_DestroyGLTextures_twice (s : State R) (hwf : s.WellFormed) :
    ∃ s1 s2 : State R,
      DestroyGLTextures s = some s1 ∧ DestroyGLTextures s1 = some s2 ∧
      s1.trace = s.trace ++ s.registry.map (fun e => Call.glDeleteTextures 1 e.ID) ∧
      s2.trace = s1.trace ++ s.registry.map (fun e => Call.glDeleteTextures 1 e.ID) ∧
      s1.m_textureIDs = s.m_textureIDs ∧ s1.m_loadedTextures = s.m_loadedTextures ∧
      s1.m_objectMaterials = s.m_objectMaterials ∧
      s2.m_textureIDs = s.m_textureIDs ∧ s2.m_loadedTextures = s.m_loadedTextures ∧
      s2.m_objectMaterials = s.m_objectMaterials ∧
      (s2 = s1 ↔ s.m_loadedTextures = 0) := by
  refine ⟨_, _, DestroyGLTextures_eq s hwf, DestroyGLTextures_eq _ hwf, rfl, rfl, rfl, rfl,
    rfl, rfl, rfl, rfl, ?_⟩
  have hlen : s.registry.length = s.m_loadedTextures := by
    simp only [State.registry, List.length_take]
    exact Nat.min_eq_left hwf
  constructor
  · intro h
    have htr := congrArg State.trace h
    simp only [State.registry] at htr
    have hnil : s.registry = [] := by
      simpa [State.registry] using htr
    rw [← hlen, hnil]; rfl
  · intro h0
    have hnil : s.registry = [] := List.eq_nil_of_length_eq_zero (by rw [hlen, h0])
    simp only [State.registry] at hnil
    simp [State.registry, hnil]

/-- C9 (amended) on the registry of two textures. -/
theorem C9_DestroyGLTextures_twice_witness :
    ∃ s1 s2 : State ℚ,
      DestroyGLTextures sampleState = some s1 ∧ DestroyGLTextures s1 = some s2 ∧
      s1.trace = sampleState.trace
        ++ sampleState.registry.map (fun e => Call.glDeleteTextures 1 e.ID) ∧
      s2.trace = s1.trace
        ++ sampleState.registry.map (fun e => Call.glDeleteTextures 1 e.ID) ∧
      s1.m_textureIDs = sampleState.m_textureIDs ∧
      s1.m_loadedTextures = sampleState.m_loadedTextures ∧
      s1.m_objectMaterials = sampleState.m_objectMaterials ∧
      s2.m_textureIDs = sampleState.m_textureIDs ∧
      s2.m_loadedTextures = sampleState.m_loadedTextures ∧
      s2.m_objectMaterials = sampleState.m_objectMaterials ∧
      (s2 = s1 ↔ sampleState.m_loadedTextures = 0) :=
  C9_DestroyGLTextures_twice sampleState (by decide)

/-- C10: on a well-formed scene manager holding `n` textures,
`BindGLTextures` makes, for `i` from 0 to `n - 1` in increasing order, the call
`glActiveTexture(GL_TEXTURE0 + i)` followed by `glBindTexture(GL_TEXTURE_2D, ID)`
with the texture name of registry entry `i`, and no other call: `n` bindings,
`2 * n` calls.  The array, the count and the materials are unchanged. -/
theorem C10_BindGLTextures (s : State R) (hwf : s.WellFormed) :
    BindGLTextures s
      = some { s with
          trace := s.trace ++ s.registry.enum.flatMap fun p =>
            [Call.glActiveTexture (GL_TEXTURE0 + p.1),
             Call.glBindTexture GL_TEXTURE_2D p.2.ID] } ∧
    (s.registry.enum.flatMap fun p =>
        [(Call.glActiveTexture (GL_TEXTURE0 + p.1) : Call R),
         Call.glBindTexture GL_TEXTURE_2D p.2.ID]).length = 2 * s.m_loadedTextures ∧
    s.registry.enum.map Prod.fst = List.range s.m_loadedTextures := by
  have h := BindGLTextures_loop_eq (R := R) s.m_textureIDs s.m_loadedTextures hwf
    s.m_loadedTextures 0 s.trace (by omega)
  have hlen : s.registry.length = s.m_loadedTextures := by
    simp only [State.registry, List.length_take]
    exact Nat.min_eq_left hwf
  refine ⟨?_, ?_, ?_⟩
  · simp [BindGLTextures, h, State.registry, List.enum]
  · rw [List.length_flatMap]
    have hconst : (List.length ∘ fun p : Nat × TEXTURE_INFO =>
        [(Call.glActiveTexture (GL_TEXTURE0 + p.1) : Call R),
         Call.glBindTexture GL_TEXTURE_2D p.2.ID]) = fun _ => 2 := by
      funext p; rfl
    rw [hconst, List.map_const', List.sum_replicate, List.enum_length, hlen]
    simp [Nat.mul_comm]
  · rw [List.enum_map_fst, hlen]

/-- C10 on the registry of two textures: units 0 and 1 are bound to texture
names 1 and 2. -/
theorem C10_BindGLTextures_witness :
    BindGLTextures sampleState
      = some { sampleState with
          trace := sampleState.trace ++ sampleState.registry.enum.flatMap fun p =>
            [Call.glActiveTexture (GL_TEXTURE0 + p.1),
             Call.glBindTexture GL_TEXTURE_2D p.2.ID] } ∧
    (sampleState.registry.enum.flatMap fun p =>
        [(Call.glActiveTexture (GL_TEXTURE0 + p.1) : Call ℚ),
         Call.glBindTexture GL_TEXTURE_2D p.2.ID]).length
      = 2 * sampleState.m_loadedTextures ∧
    sampleState.registry.enum.map Prod.fst = List.range sampleState.m_loadedTextures :=
  C10_BindGLTextures sampleState (by decide)

/-! ### Binding past the unit limit, texture mode -/

/-- What `BindGLTextures` does on a well-formed scene manager. -/
theorem BindGLTextures_eq (s : State R) (hwf : s.WellFormed) :
    BindGLTextures s
      = some { s with
          trace := s.trace ++ s.registry.enum.flatMap fun p =>
            [Call.glActiveTexture (GL_TEXTURE0 + p.1),
             Call.glBindTexture GL_TEXTURE_2D p.2.ID] } := by
  have h := BindGLTextures_loop_eq (R := R) s.m_textureIDs s.m_loadedTextures hwf
    s.m_loadedTextures 0 s.trace (by omega)
  simp [BindGLTextures, h, State.registry, List.enum]

/-- On a well-formed scene manager `FindTextureSlot` returns a value. -/
theorem FindTextureSlot_total (s : State R) (tag : String) (hwf : s.WellFormed) :
    ∃ v, FindTextureSlot s tag = some v := by
  classical
  by_cases h : ∃ e ∈ s.registry, e.tag = tag
  · obtain ⟨j, e, hj, he, ht, hmin⟩ := first_occurrence s.m_textureIDs s.m_loadedTextures tag h
    exact ⟨_, FindTextureSlot_loop_first s.m_textureIDs s.m_loadedTextures tag (-1) j e hj he
      ht hmin⟩
  · have habs : ∀ e ∈ s.m_textureIDs.take s.m_loadedTextures, e.tag ≠ tag := by
      intro e he hte
      exact h ⟨e, he, hte⟩
    exact ⟨_, FindTextureSlot_loop_absent s.m_textureIDs s.m_loadedTextures tag (-1) hwf habs⟩

/-- With a shader manager present `SetShaderTexture` makes two calls: it
switches texture sampling on and passes on what `FindTextureSlot` returned. -/
theorem SetShaderTexture_eq (s : State R) (tag : String) (v : Int)
    (hptr : s.m_pShaderManager = true) (hv : FindTextureSlot s tag = some v) :
    SetShaderTexture tag s
      = some { s with
          trace := s.trace ++ [Call.setIntValue "bUseTexture" 1,
            Call.setSampler2DValue "objectTexture" v] } := by
  have hv2 : FindTextureSlot (s.emit [Call.setIntValue g_UseTextureName 1]) tag = some v := hv
  unfold SetShaderTexture
  rw [if_pos hptr]
  simp only [hv2]
  simp [State.emit, g_UseTextureName, g_TextureValueName]

theorem runStmts_append (F : FloatOps ℚ) (uninit : OBJECT_MATERIAL ℚ) (l1 l2 : List Stmt) :
    ∀ s : State ℚ, runStmts F uninit (l1 ++ l2) s
      = (runStmts F uninit l1 s).bind (runStmts F uninit l2) := by
  induction l1 with
  | nil => intro s; rfl
  | cons c cs ih =>
    intro s
    simp only [List.cons_append, runStmts]
    cases c.run F uninit s with
    | none => rfl
    | some s1 => exact ih s1

/-- What one state-setting call adds to the trace, as far as the uniforms
"bUseTexture" and "objectColor" go. -/
theorem Stmt.run_setsState (F : FloatOps ℚ) (uninit : OBJECT_MATERIAL ℚ) (c : Stmt)
    (s : State ℚ) (hc : c.setsState = true) (hptr : s.m_pShaderManager = true)
    (hwf : s.WellFormed) :
    ∃ calls : List (Call ℚ),
      c.run F uninit s = some { s with trace := s.trace ++ calls } ∧
      calls.filter (fun x => x.uniformName = some "bUseTexture")
        = (if c.isColorOrTexture then
            [Call.setIntValue "bUseTexture" (if c.isSetShaderTexture then 1 else 0)]
           else []) ∧
      calls.filter (fun x => x.uniformName = some "objectColor")
        = (match c.color with
           | some col => [Call.setVec4Value "objectColor" col]
           | none => []) := by
  cases c with
  | SetTransformations sc x y z p =>
    exact ⟨_, by simp [Stmt.run, SceneManager.SetTransformations, hptr, State.emit]; rfl,
      by simp [Call.uniformName, g_ModelName, Stmt.isColorOrTexture],
      by simp [Call.uniformName, g_ModelName, Stmt.color]⟩
  | SetShaderColor r g b a =>
    exact ⟨_, by simp [Stmt.run, SceneManager.SetShaderColor, hptr, State.emit]; rfl,
      by simp [Call.uniformName, g_UseTextureName, g_ColorValueName, Stmt.isColorOrTexture,
        Stmt.isSetShaderTexture],
      by simp [Call.uniformName, g_UseTextureName, g_ColorValueName, Stmt.color]⟩
  | SetShaderTexture tag =>
    obtain ⟨v, hv⟩ := FindTextureSlot_total s tag hwf
    refine ⟨[Call.setIntValue "bUseTexture" 1, Call.setSampler2DValue "objectTexture" v],
      ?_, ?_, ?_⟩
    · simp only [Stmt.run]
      exact SetShaderTexture_eq s tag v hptr hv
    · simp [Call.uniformName, Stmt.isColorOrTexture, Stmt.isSetShaderTexture]
    · simp [Call.uniformName, Stmt.color]
  | SetTextureUVScale u v =>
    exact ⟨_, by simp [Stmt.run, SceneManager.SetTextureUVScale, hptr, State.emit]; rfl,
      by simp [Call.uniformName, Stmt.isColorOrTexture],
      by simp [Call.uniformName, Stmt.color]⟩
  | SetShaderMaterial tag =>
    by_cases hlen : s.m_objectMaterials.length > 0
    · have hne : s.m_objectMaterials.length ≠ 0 := by omega
      refine ⟨[Call.setVec3Value "material.ambientColor"
            (FindMaterial s tag uninit).2.ambientColor,
          Call.setFloatValue "material.ambientStrength"
            (FindMaterial s tag uninit).2.ambientStrength,
          Call.setVec3Value "material.diffuseColor"
            (FindMaterial s tag uninit).2.diffuseColor,
          Call.setVec3Value "material.specularColor"
            (FindMaterial s tag uninit).2.specularColor,
          Call.setFloatValue "material.shininess"
            (FindMaterial s tag uninit).2.shininess], ?_, ?_, ?_⟩
      · have hret : (FindMaterial s tag uninit).1 = true := by
          simp [FindMaterial, hne]
        simp [Stmt.run, SceneManager.SetShaderMaterial, hlen, hret, hptr, State.emit]
      · simp [Call.uniformName, Stmt.isColorOrTexture]
      · simp [Call.uniformName, Stmt.color]
    · exact ⟨[], by simp [Stmt.run, SceneManager.SetShaderMaterial, hlen],
        by simp [Stmt.isColorOrTexture], by simp [Stmt.color]⟩
  | DrawMesh m a => simp [Stmt.setsState] at hc
  | glEnable cap => simp [Stmt.setsState] at hc
  | glDisable cap => simp [Stmt.setsState] at hc
  | glBlendFunc a b => simp [Stmt.setsState] at hc

/-- The value a mode call leaves in "bUseTexture". -/
theorem runStmts_setsState (F : FloatOps ℚ) (uninit : OBJECT_MATERIAL ℚ) (s : State ℚ)
    (hptr : s.m_pShaderManager = true) (hwf : s.WellFormed) (seq : List Stmt) :
    (∀ c ∈ seq, c.setsState = true) →
    ∃ calls : List (Call ℚ),
      runStmts F uninit seq s = some { s with trace := s.trace ++ calls } ∧
      (calls.filter (fun x => x.uniformName = some "bUseTexture")).getLast?
        = (lastModeCall seq).map (fun last =>
            Call.setIntValue "bUseTexture" (if last.isSetShaderTexture then 1 else 0)) ∧
      (calls.filter (fun x => x.uniformName = some "objectColor")).getLast?
        = (lastColorCall seq).bind (fun last =>
            last.color.map (fun col => Call.setVec4Value "objectColor" col)) := by
  induction seq using List.reverseRecOn with
  | nil =>
    intro _
    exact ⟨[], by simp [runStmts], by simp [lastModeCall], by simp [lastColorCall]⟩
  | append_singleton seq c ih =>
    intro hall
    obtain ⟨calls, hrun, hmode, hcol⟩ := ih (fun x hx => hall x (by simp [hx]))
    have hc : c.setsState = true := hall c (by simp)
    obtain ⟨cc, hrunc, hmodec, hcolc⟩ := Stmt.run_setsState F uninit c
      { s with trace := s.trace ++ calls } hc hptr hwf
    refine ⟨calls ++ cc, ?_, ?_, ?_⟩
    · rw [runStmts_append, hrun, Option.some_bind]
      simp only [runStmts, hrunc, List.append_assoc]
    · rw [List.filter_append, List.getLast?_append, hmodec, hmode]
      simp only [lastModeCall, List.filter_append, List.getLast?_append]
      by_cases hm : c.isColorOrTexture = true
      · simp [hm, List.filter]
      · simp [hm, List.filter]
    · rw [List.filter_append, List.getLast?_append, hcolc, hcol]
      simp only [lastColorCall, List.filter_append, List.getLast?_append]
      cases hcc : c.color with
      | none => simp [hcc, List.filter]
      | some col => simp [hcc, List.filter]

/-- C12: with a shader manager present, on a well-formed scene manager, every
finite sequence of calls to `SetShaderColor`, `SetShaderTexture`,
`SetTextureUVScale`, `SetTransformations` and `SetShaderMaterial` that
contains a `SetShaderColor` or `SetShaderTexture` call runs to the end, and
"bUseTexture" then holds 1 when the last of those mode calls is a
`SetShaderTexture` and 0 when it is a `SetShaderColor`; when the sequence
contains a `SetShaderColor`, "objectColor" holds the arguments of the last
one.  A single `SetShaderColor(r, g, b, a)` leaves "bUseTexture" at 0 and
"objectColor" at (r, g, b, a). -/
theorem C12_last_mode_call_wins (F : FloatOps ℚ) (uninit : OBJECT_MATERIAL ℚ)
    (s : State ℚ) (seq : List Stmt) (hptr : s.m_pShaderManager = true)
    (hwf : s.WellFormed) (hseq : ∀ c ∈ seq, c.setsState = true)
    (hmode : ∃ c ∈ seq, c.isColorOrTexture = true) :
    (∃ (s' : State ℚ) (last : Stmt),
      runStmts F uninit seq s = some s' ∧
      lastModeCall seq = some last ∧
      uniform s'.trace "bUseTexture"
        = some (Call.setIntValue "bUseTexture" (if last.isSetShaderTexture then 1 else 0)) ∧
      (uniform s'.trace "bUseTexture" = some (Call.setIntValue "bUseTexture" 1)
        ↔ last.isSetShaderTexture = true) ∧
      (∀ c col, lastColorCall seq = some c → c.color = some col →
        uniform s'.trace "objectColor" = some (Call.setVec4Value "objectColor" col))) ∧
    (∀ r g b a : ℚ,
      uniform (SetShaderColor r g b a s).trace "bUseTexture"
        = some (Call.setIntValue "bUseTexture" 0) ∧
      uniform (SetShaderColor r g b a s).trace "objectColor"
        = some (Call.setVec4Value "objectColor" ⟨r, g, b, a⟩)) := by
  constructor
  · obtain ⟨calls, hrun, hm, hcol⟩ := runStmts_setsState F uninit s hptr hwf seq hseq
    have hne : seq.filter Stmt.isColorOrTexture ≠ [] := by
      obtain ⟨c, hc, hcm⟩ := hmode
      intro hnil
      have : c ∈ seq.filter Stmt.isColorOrTexture := List.mem_filter.mpr ⟨hc, hcm⟩
      rw [hnil] at this
      simp at this
    obtain ⟨last, hlast⟩ : ∃ last, lastModeCall seq = some last := by
      unfold lastModeCall
      cases hg : (seq.filter Stmt.isColorOrTexture).getLast? with
      | none => exact absurd (List.getLast?_eq_none_iff.mp hg) hne
      | some x => exact ⟨x, rfl⟩
    have huni : uniform (s.trace ++ calls) "bUseTexture"
        = some (Call.setIntValue "bUseTexture"
            (if last.isSetShaderTexture then 1 else 0)) := by
      unfold uniform
      rw [List.filter_append, List.getLast?_append, hm, hlast]
      rfl
    refine ⟨_, last, hrun, hlast, huni, ?_, ?_⟩
    · show uniform (s.trace ++ calls) "bUseTexture" = _ ↔ _
      rw [huni]
      by_cases ht : last.isSetShaderTexture = true <;> simp [ht]
    · intro c col hc hcc
      show uniform (s.trace ++ calls) "objectColor" = _
      unfold uniform
      rw [List.filter_append, List.getLast?_append, hcol, hc]
      simp [hcc]
  · intro r g b a
    simp [SetShaderColor, hptr, State.emit, uniform, List.filter_append, Call.uniformName,
      g_UseTextureName, g_ColorValueName, List.getLast?_append, List.filter]

/-- C12 on the two-texture registry: colour, then texture, then colour again
with other calls in between. -/
theorem C12_last_mode_call_wins_witness :
    (∃ (s' : State ℚ) (last : Stmt),
      runStmts identityOps staleMaterial
        [.SetShaderColor 1 0 0 1, .SetShaderTexture "table", .SetTextureUVScale 1 1,
         .SetShaderColor 0 1 0 1, .SetTransformations ⟨1, 1, 1⟩ 0 0 0 ⟨0, 0, 0⟩,
         .SetShaderMaterial "wood"] sampleState = some s' ∧
      lastModeCall [.SetShaderColor 1 0 0 1, .SetShaderTexture "table",
         .SetTextureUVScale 1 1, .SetShaderColor 0 1 0 1,
         .SetTransformations ⟨1, 1, 1⟩ 0 0 0 ⟨0, 0, 0⟩, .SetShaderMaterial "wood"]
        = some last ∧
      uniform s'.trace "bUseTexture"
        = some (Call.setIntValue "bUseTexture" (if last.isSetShaderTexture then 1 else 0)) ∧
      (uniform s'.trace "bUseTexture" = some (Call.setIntValue "bUseTexture" 1)
        ↔ last.isSetShaderTexture = true) ∧
      (∀ c col, lastColorCall [.SetShaderColor 1 0 0 1, .SetShaderTexture "table",
         .SetTextureUVScale 1 1, .SetShaderColor 0 1 0 1,
         .SetTransformations ⟨1, 1, 1⟩ 0 0 0 ⟨0, 0, 0⟩, .SetShaderMaterial "wood"] = some c →
        c.color = some col →
        uniform s'.trace "objectColor" = some (Call.setVec4Value "objectColor" col))) ∧
    (∀ r g b a : ℚ,
      uniform (SetShaderColor r g b a sampleState).trace "bUseTexture"
        = some (Call.setIntValue "bUseTexture" 0) ∧
      uniform (SetShaderColor r g b a sampleState).trace "objectColor"
        = some (Call.setVec4Value "objectColor" ⟨r, g, b, a⟩)) :=
  C12_last_mode_call_wins identityOps staleMaterial sampleState _ rfl (by decide)
    (by simp [Stmt.setsState]) ⟨.SetShaderColor 1 0 0 1, by simp, rfl⟩

/-- C13: with a shader manager present, on a well-formed scene manager,
`SetShaderTexture(tag)` for a tag that no registered texture carries returns
normally: it sets "bUseTexture" to 1 and "objectTexture" to -1, makes no other
call and changes nothing else, the registry included. -/
theorem C13_SetShaderTexture_absent (s : State R) (tag : String)
    (hptr : s.m_pShaderManager = true) (hwf : s.WellFormed)
    (habs : ∀ e ∈ s.registry, e.tag ≠ tag) :
    SetShaderTexture tag s
      = some { s with
          trace := s.trace ++ [Call.setIntValue "bUseTexture" 1,
            Call.setSampler2DValue "objectTexture" (-1)] } ∧
    uniform (s.trace ++ [Call.setIntValue "bUseTexture" 1,
        Call.setSampler2DValue "objectTexture" (-1)]) "bUseTexture"
      = some (Call.setIntValue "bUseTexture" 1) ∧
    uniform (s.trace ++ [(Call.setIntValue "bUseTexture" 1 : Call R),
        Call.setSampler2DValue "objectTexture" (-1)]) "objectTexture"
      = some (Call.setSampler2DValue "objectTexture" (-1)) := by
  refine ⟨SetShaderTexture_eq s tag (-1) hptr
    (FindTextureSlot_loop_absent s.m_textureIDs s.m_loadedTextures tag (-1) hwf habs), ?_, ?_⟩
  · simp [uniform, List.filter_append, List.getLast?_append, Call.uniformName, List.filter]
  · simp [uniform, List.filter_append, List.getLast?_append, Call.uniformName, List.filter]

/-- C13 on the two-texture registry, for the unregistered tag "bubbles". -/
theorem C13_SetShaderTexture_absent_witness :
    SetShaderTexture "bubbles" sampleState
      = some { sampleState with
          trace := sampleState.trace ++ [Call.setIntValue "bUseTexture" 1,
            Call.setSampler2DValue "objectTexture" (-1)] } ∧
    uniform (sampleState.trace ++ [Call.setIntValue "bUseTexture" 1,
        Call.setSampler2DValue "objectTexture" (-1)]) "bUseTexture"
      = some (Call.setIntValue "bUseTexture" 1) ∧
    uniform (sampleState.trace ++ [(Call.setIntValue "bUseTexture" 1 : Call ℚ),
        Call.setSampler2DValue "objectTexture" (-1)]) "objectTexture"
      = some (Call.setSampler2DValue "objectTexture" (-1)) :=
  C13_SetShaderTexture_absent sampleState "bubbles" rfl (by decide)
    (by simp [State.registry, sampleState])

/-! ### Materials -/

/-- What `DefineObjectMaterials` appends: eight materials, none tagged
"innerLemon". -/
theorem DefineObjectMaterials_appends (uninit : String → OBJECT_MATERIAL ℚ) (s : State ℚ) :
    ∃ added : List (OBJECT_MATERIAL ℚ),
      DefineObjectMaterials uninit s
        = { s with m_objectMaterials := s.m_objectMaterials ++ added } ∧
      added.map (fun m => m.tag)
        = ["wood", "glass", "beer", "foam", "lemon", "backdrop", "plate", "metal"] := by
  refine ⟨(DefineObjectMaterials uninit { s with m_objectMaterials := [] }).m_objectMaterials,
    ?_, rfl⟩
  simp [DefineObjectMaterials]

/-- C14 as stated fails: running `DefineObjectMaterials` twice on the empty
material list gives 16 materials, not the 8 of a single run, and every tag
occurs twice. -/
theorem C14_define_twice_counterexample :
    (DefineObjectMaterials zeroLocals (construct ℚ true 16)).m_objectMaterials.length = 8 ∧
    (DefineObjectMaterials zeroLocals
      (DefineObjectMaterials zeroLocals (construct ℚ true 16))).m_objectMaterials.length = 16 ∧
    (DefineObjectMaterials zeroLocals
      (DefineObjectMaterials zeroLocals (construct ℚ true 16))).m_objectMaterials.map
        (fun m => m.tag)
      = ["wood", "glass", "beer", "foam", "lemon", "backdrop", "plate", "metal",
         "wood", "glass", "beer", "foam", "lemon", "backdrop", "plate", "metal"] ∧
    (DefineObjectMaterials zeroLocals
      (DefineObjectMaterials zeroLocals (construct ℚ true 16))).m_objectMaterials
      ≠ (DefineObjectMaterials zeroLocals (construct ℚ true 16)).m_objectMaterials := by
  refine ⟨rfl, rfl, rfl, ?_⟩
  intro h
  have := congrArg List.length h
  simp [DefineObjectMaterials, construct] at this

/-- C14, amended: `DefineObjectMaterials` appends to the material list,
whatever the list holds: one run adds eight materials, tagged wood, glass,
beer, foam, lemon, backdrop, plate and metal in that order, after the
materials already there, and changes nothing else.  A second run adds the same
eight tags again, so each then occurs once more than before. -/
theorem C14_DefineObjectMaterials_appends (uninit1 uninit2 : String → OBJECT_MATERIAL ℚ)
    (s : State ℚ) :
    (∃ added : List (OBJECT_MATERIAL ℚ),
      DefineObjectMaterials uninit1 s
        = { s with m_objectMaterials := s.m_objectMaterials ++ added } ∧
      added.map (fun m => m.tag)
        = ["wood", "glass", "beer", "foam", "lemon", "backdrop", "plate", "metal"]) ∧
    (DefineObjectMaterials uninit1 s).m_objectMaterials.length
      = s.m_objectMaterials.length + 8 ∧
    (DefineObjectMaterials uninit2 (DefineObjectMaterials uninit1 s)).m_objectMaterials.length
      = s.m_objectMaterials.length + 16 ∧
    (DefineObjectMaterials uninit2 (DefineObjectMaterials uninit1 s)).m_objectMaterials.map
        (fun m => m.tag)
      = s.m_objectMaterials.map (fun m => m.tag)
        ++ ["wood", "glass", "beer", "foam", "lemon", "backdrop", "plate", "metal"]
        ++ ["wood", "glass", "beer", "foam", "lemon", "backdrop", "plate", "metal"] := by
  obtain ⟨a1, h1, t1⟩ := DefineObjectMaterials_appends uninit1 s
  obtain ⟨a2, h2, t2⟩ := DefineObjectMaterials_appends uninit2 (DefineObjectMaterials uninit1 s)
  have l1 : a1.length = 8 := by
    have := congrArg List.length t1
    simpa using this
  have l2 : a2.length = 8 := by
    have := congrArg List.length t2
    simpa using this
  refine ⟨⟨a1, h1, t1⟩, ?_, ?_, ?_⟩
  · rw [h1]; simp [l1]
  · rw [h2, h1]; simp [l1, l2]
  · rw [h2, h1]; simp [t1, t2]

/-- C20 (the code departs from the claim): after `DefineObjectMaterials` on
the empty material list the list holds eight materials and none has the tag
"innerLemon": the source fills `innerLemonMaterial` but never appends it.  No
`SetShaderMaterial` call of `RenderScene` names "innerLemon" either. -/
theorem C20_innerLemon_not_defined (uninit : String → OBJECT_MATERIAL ℚ) :
    (DefineObjectMaterials uninit (construct ℚ true 16)).m_objectMaterials.map
        (fun m => m.tag)
      = ["wood", "glass", "beer", "foam", "lemon", "backdrop", "plate", "metal"] ∧
    (∀ m ∈ (DefineObjectMaterials uninit (construct ℚ true 16)).m_objectMaterials,
      m.tag ≠ "innerLemon") ∧
    "innerLemon" ∉ materialTags RenderScene := by
  have htags : (DefineObjectMaterials uninit (construct ℚ true 16)).m_objectMaterials.map
      (fun m => m.tag)
      = ["wood", "glass", "beer", "foam", "lemon", "backdrop", "plate", "metal"] := rfl
  refine ⟨htags, ?_, by decide⟩
  intro m hm hmt
  have : m.tag ∈ (DefineObjectMaterials uninit (construct ℚ true 16)).m_objectMaterials.map
      (fun m => m.tag) := List.mem_map.mpr ⟨m, hm, rfl⟩
  rw [htags, hmt] at this
  simp at this

/-! ### Looking up a material, looking up a registered texture -/

/-- The five fields `FindMaterial` copies into its output parameter. -/
theorem FindMaterial_loop_found (mats : List (OBJECT_MATERIAL R)) (tag : String)
    (index : Nat) (material : OBJECT_MATERIAL R) :
    FindMaterial.loop mats tag index true material = material := by
  rw [FindMaterial.loop]; simp

theorem FindMaterial_loop_hit (mats : List (OBJECT_MATERIAL R)) (tag : String)
    (index : Nat) (material m : OBJECT_MATERIAL R) (he : mats[index]? = some m)
    (ht : m.tag = tag) :
    FindMaterial.loop mats tag index false material
      = { material with
          ambientColor := m.ambientColor
          ambientStrength := m.ambientStrength
          diffuseColor := m.diffuseColor
          specularColor := m.specularColor
          shininess := m.shininess } := by
  obtain ⟨hlt, hget⟩ := List.getElem?_eq_some_iff.mp he
  rw [FindMaterial.loop]
  have hcond : index < mats.length ∧ false = false := ⟨hlt, rfl⟩
  rw [dif_pos hcond]
  have hget2 : mats.get ⟨index, hlt⟩ = m := hget
  simp only [hget2, ht, if_true, FindMaterial_loop_found]

theorem FindMaterial_loop_miss (mats : List (OBJECT_MATERIAL R)) (tag : String)
    (index : Nat) (material m : OBJECT_MATERIAL R) (he : mats[index]? = some m)
    (ht : m.tag ≠ tag) :
    FindMaterial.loop mats tag index false material
      = FindMaterial.loop mats tag (index + 1) false material := by
  obtain ⟨hlt, hget⟩ := List.getElem?_eq_some_iff.mp he
  rw [FindMaterial.loop]
  have hcond : index < mats.length ∧ false = false := ⟨hlt, rfl⟩
  rw [dif_pos hcond]
  have hget2 : mats.get ⟨index, hlt⟩ = m := hget
  simp only [hget2, ht, if_false]

theorem FindMaterial_loop_skip (mats : List (OBJECT_MATERIAL R)) (tag : String)
    (material : OBJECT_MATERIAL R) (d : Nat) : ∀ (index : Nat),
    (∀ k, index ≤ k → k < index + d → ∃ m, mats[k]? = some m ∧ m.tag ≠ tag) →
    FindMaterial.loop mats tag index false material
      = FindMaterial.loop mats tag (index + d) false material := by
  induction d with
  | zero => intro index _; rfl
  | succ d ih =>
    intro index hall
    obtain ⟨m, he, ht⟩ := hall index (Nat.le_refl _) (by omega)
    rw [FindMaterial_loop_miss mats tag index material m he ht,
      ih (index + 1) (fun k h1 h2 => hall k (by omega) (by omega))]
    congr 1; omega

/-- A tag carried by a material of the list has a first occurrence. -/
theorem first_material (mats : List (OBJECT_MATERIAL R)) (tag : String)
    (h : ∃ m ∈ mats, m.tag = tag) :
    ∃ (j : Nat) (m : OBJECT_MATERIAL R), mats[j]? = some m ∧ m.tag = tag ∧
      ∀ k, k < j → ∃ x : OBJECT_MATERIAL R, mats[k]? = some x ∧ x.tag ≠ tag := by
  classical
  have hex : ∃ j : Nat, ∃ m : OBJECT_MATERIAL R, mats[j]? = some m ∧ m.tag = tag := by
    obtain ⟨m, hmem, ht⟩ := h
    obtain ⟨i, hi⟩ := List.mem_iff_getElem?.mp hmem
    exact ⟨i, m, hi, ht⟩
  refine ⟨Nat.find hex, ?_⟩
  obtain ⟨m, he, ht⟩ := Nat.find_spec hex
  refine ⟨m, he, ht, ?_⟩
  intro k hk
  have hklen : k < mats.length := by
    have := (List.getElem?_eq_some_iff.mp he).1
    omega
  refine ⟨mats[k], List.getElem?_eq_getElem hklen, ?_⟩
  intro hkt
  exact Nat.find_min hex hk ⟨mats[k], List.getElem?_eq_getElem hklen, hkt⟩

/-- C15: when the material list holds a material with the given tag,
`FindMaterial` returns `true`, and its output parameter then carries the
`ambientColor`, `ambientStrength`, `diffuseColor`, `specularColor` and
`shininess` of the first material in list order with that tag, its `tag` field
left as it was.  `FindMaterial` returns these two values only: the list is not
changed. -/
theorem C15_FindMaterial_first_match (s : State R) (tag : String)
    (material : OBJECT_MATERIAL R) (h : ∃ m ∈ s.m_objectMaterials, m.tag = tag) :
    ∃ (j : Nat) (m : OBJECT_MATERIAL R),
      s.m_objectMaterials[j]? = some m ∧ m.tag = tag ∧
      (∀ k, k < j → ∃ x, s.m_objectMaterials[k]? = some x ∧ x.tag ≠ tag) ∧
      FindMaterial s tag material
        = (true, { material with
            ambientColor := m.ambientColor
            ambientStrength := m.ambientStrength
            diffuseColor := m.diffuseColor
            specularColor := m.specularColor
            shininess := m.shininess }) := by
  obtain ⟨j, m, he, ht, hmin⟩ := first_material s.m_objectMaterials tag h
  refine ⟨j, m, he, ht, hmin, ?_⟩
  have hne : s.m_objectMaterials.length ≠ 0 := by
    have := (List.getElem?_eq_some_iff.mp he).1
    omega
  unfold FindMaterial
  rw [if_neg hne, FindMaterial_loop_skip s.m_objectMaterials tag material j 0
    (fun k _ hk => hmin k (by omega))]
  rw [FindMaterial_loop_hit s.m_objectMaterials tag (0 + j) material m (by simpa using he) ht]

/-- C15 on a list in which "lemon" occurs twice: the first one, with
shininess 2, is copied. -/
theorem C15_FindMaterial_first_match_witness :
    ∃ (j : Nat) (m : OBJECT_MATERIAL ℚ),
      twoLemons.m_objectMaterials[j]? = some m ∧ m.tag = "lemon" ∧
      (∀ k, k < j → ∃ x, twoLemons.m_objectMaterials[k]? = some x ∧ x.tag ≠ "lemon") ∧
      FindMaterial twoLemons "lemon" staleMaterial
        = (true, { staleMaterial with
            ambientColor := m.ambientColor
            ambientStrength := m.ambientStrength
            diffuseColor := m.diffuseColor
            specularColor := m.specularColor
            shininess := m.shininess }) :=
  C15_FindMaterial_first_match twoLemons "lemon" staleMaterial
    ⟨{ woodMaterial with tag := "lemon", shininess := 2 }, by simp [twoLemons], rfl⟩

/-- C16 as stated fails for texture names of 2^31 and more: with "table"
registered under 2147483648 and "beerBody" under 4294967295, `FindTextureSlot`
returns the indices 0 and 1, but `FindTextureID` returns -2147483648 for
"table", which is not the stored name, and -1 for "beerBody", the value it
also returns for the absent tag "plate". -/
theorem C16_high_texture_name_counterexample :
    highState.WellFormed ∧
    highState.registry = [⟨"table", 2147483648⟩, ⟨"beerBody", 4294967295⟩] ∧
    FindTextureSlot highState "table" = some 0 ∧
    FindTextureSlot highState "beerBody" = some 1 ∧
    FindTextureID highState "table" = some (-2147483648) ∧
    FindTextureID highState "table" ≠ some 2147483648 ∧
    FindTextureID highState "beerBody" = some (-1) ∧
    FindTextureID highState "beerBody" ≠ some 4294967295 ∧
    FindTextureID highState "plate" = some (-1) := by
  have h1 : FindTextureID highState "table" = some (-2147483648) := by
    simp [FindTextureID, FindTextureID.loop, highState, toInt32]
  have h2 : FindTextureID highState "beerBody" = some (-1) := by
    simp [FindTextureID, FindTextureID.loop, highState, toInt32]
  refine ⟨by decide, by simp [State.registry, highState], ?_, ?_, h1, ?_, h2, ?_, ?_⟩
  · simp [FindTextureSlot, FindTextureSlot.loop, highState]
  · simp [FindTextureSlot, FindTextureSlot.loop, highState]
  · rw [h1]; decide
  · rw [h2]; decide
  · simp [FindTextureID, FindTextureID.loop, highState, TEXTURE_INFO.unset]

/-- C16, amended: for a tag carried by a registered texture, `FindTextureSlot`
returns the least index below the count whose entry has that tag, and
`FindTextureID` returns the texture name stored in that entry converted to
`int`: the name itself when it is below 2^31, and the name minus 2^32 when it
is 2^31 or more. -/
theorem C16_find_registered_tag (s : State R) (tag : String)
    (h : ∃ e ∈ s.registry, e.tag = tag) :
    ∃ (j : Nat) (e : TEXTURE_INFO),
      j < s.m_loadedTextures ∧ s.m_textureIDs[j]? = some e ∧ e.tag = tag ∧
      (∀ k, k < j → ∃ x, s.m_textureIDs[k]? = some x ∧ x.tag ≠ tag) ∧
      FindTextureSlot s tag = some (j : Int) ∧
      FindTextureID s tag = some (toInt32 e.ID) ∧
      (e.ID < 2 ^ 31 → FindTextureID s tag = some (e.ID : Int)) ∧
      (2 ^ 31 ≤ e.ID → e.ID < 2 ^ 32 →
        FindTextureID s tag = some ((e.ID : Int) - 2 ^ 32)) := by
  obtain ⟨j, e, hj, he, ht, hmin⟩ := first_occurrence s.m_textureIDs s.m_loadedTextures tag h
  have hid := FindTextureID_loop_first s.m_textureIDs s.m_loadedTextures tag (-1) j e hj he
    ht hmin
  refine ⟨j, e, hj, he, ht, hmin,
    FindTextureSlot_loop_first s.m_textureIDs s.m_loadedTextures tag (-1) j e hj he ht hmin,
    hid, ?_, ?_⟩
  · intro hsmall
    rw [← toInt32_small e.ID hsmall]
    exact hid
  · intro h1 h2
    rw [← toInt32_large e.ID h1 h2]
    exact hid

/-- C16 (amended) on the two-texture registry, for the tag "beerBody". -/
theorem C16_find_registered_tag_witness :
    ∃ (j : Nat) (e : TEXTURE_INFO),
      j < sampleState.m_loadedTextures ∧ sampleState.m_textureIDs[j]? = some e ∧
      e.tag = "beerBody" ∧
      (∀ k, k < j → ∃ x, sampleState.m_textureIDs[k]? = some x ∧ x.tag ≠ "beerBody") ∧
      FindTextureSlot sampleState "beerBody" = some (j : Int) ∧
      FindTextureID sampleState "beerBody" = some (toInt32 e.ID) ∧
      (e.ID < 2 ^ 31 → FindTextureID sampleState "beerBody" = some (e.ID : Int)) ∧
      (2 ^ 31 ≤ e.ID → e.ID < 2 ^ 32 →
        FindTextureID sampleState "beerBody" = some ((e.ID : Int) - 2 ^ 32)) :=
  C16_find_registered_tag sampleState "beerBody"
    ⟨⟨"beerBody", 2⟩, by simp [State.registry, sampleState], rfl⟩

/-! ### Preparing the scene -/

/-- One load of `PrepareScene` on a state with room in the array: the file is
asked for once, no texture unit is activated, and an entry is appended exactly
when the image decodes with 3 or 4 channels. -/
theorem Loader.CreateGLTexture_step (env : Loader) (filename tag : String) (s : State ℚ)
    (hroom : s.m_loadedTextures < s.m_textureIDs.length) :
    ∃ tr : List (Call ℚ),
      tr.filterMap Call.loadedFile = [filename] ∧
      (∀ u, Call.glActiveTexture u ∉ tr) ∧
      env.CreateGLTexture filename tag (some s)
        = some (if env.succeeds filename then
            { s with
              m_textureIDs := s.m_textureIDs.set s.m_loadedTextures
                ⟨tag, env.glGenTextures filename⟩
              m_loadedTextures := s.m_loadedTextures + 1
              trace := s.trace ++ tr }
          else { s with trace := s.trace ++ tr }) := by
  cases himg : env.stbi_load filename with
  | none =>
    refine ⟨[Call.stbi_set_flip_vertically_on_load true, Call.stbi_load filename], ?_, ?_, ?_⟩
    · simp [Call.loadedFile]
    · simp
    · simp [Loader.CreateGLTexture, Loader.succeeds, himg, SceneManager.CreateGLTexture,
        State.emit]
  | some img =>
    by_cases h3 : img.colorChannels = 3
    · refine ⟨[Call.stbi_set_flip_vertically_on_load true, Call.stbi_load filename,
        Call.glGenTextures 1 (env.glGenTextures filename),
        Call.glBindTexture GL_TEXTURE_2D (env.glGenTextures filename),
        Call.glTexParameteri GL_TEXTURE_2D GL_TEXTURE_WRAP_S GL_REPEAT,
        Call.glTexParameteri GL_TEXTURE_2D GL_TEXTURE_WRAP_T GL_REPEAT,
        Call.glTexParameteri GL_TEXTURE_2D GL_TEXTURE_MIN_FILTER GL_LINEAR,
        Call.glTexParameteri GL_TEXTURE_2D GL_TEXTURE_MAG_FILTER GL_LINEAR,
        Call.glTexImage2D GL_TEXTURE_2D 0 GL_RGB8 img.width img.height 0 GL_RGB
          GL_UNSIGNED_BYTE,
        Call.glGenerateMipmap GL_TEXTURE_2D, Call.stbi_image_free,
        Call.glBindTexture GL_TEXTURE_2D 0], ?_, ?_, ?_⟩
      · simp [Call.loadedFile]
      · simp
      · simp [Loader.CreateGLTexture, Loader.succeeds, himg, SceneManager.CreateGLTexture,
          State.emit, h3, hroom]
    · by_cases h4 : img.colorChannels = 4
      · refine ⟨[Call.stbi_set_flip_vertically_on_load true, Call.stbi_load filename,
          Call.glGenTextures 1 (env.glGenTextures filename),
          Call.glBindTexture GL_TEXTURE_2D (env.glGenTextures filename),
          Call.glTexParameteri GL_TEXTURE_2D GL_TEXTURE_WRAP_S GL_REPEAT,
          Call.glTexParameteri GL_TEXTURE_2D GL_TEXTURE_WRAP_T GL_REPEAT,
          Call.glTexParameteri GL_TEXTURE_2D GL_TEXTURE_MIN_FILTER GL_LINEAR,
          Call.glTexParameteri GL_TEXTURE_2D GL_TEXTURE_MAG_FILTER GL_LINEAR,
          Call.glTexImage2D GL_TEXTURE_2D 0 GL_RGBA8 img.width img.height 0 GL_RGBA
            GL_UNSIGNED_BYTE,
          Call.glGenerateMipmap GL_TEXTURE_2D, Call.stbi_image_free,
          Call.glBindTexture GL_TEXTURE_2D 0], ?_, ?_, ?_⟩
        · simp [Call.loadedFile]
        · simp
        · simp [Loader.CreateGLTexture, Loader.succeeds, himg, SceneManager.CreateGLTexture,
            State.emit, h4, hroom]
      · refine ⟨[Call.stbi_set_flip_vertically_on_load true, Call.stbi_load filename,
          Call.glGenTextures 1 (env.glGenTextures filename),
          Call.glBindTexture GL_TEXTURE_2D (env.glGenTextures filename),
          Call.glTexParameteri GL_TEXTURE_2D GL_TEXTURE_WRAP_S GL_REPEAT,
          Call.glTexParameteri GL_TEXTURE_2D GL_TEXTURE_WRAP_T GL_REPEAT,
          Call.glTexParameteri GL_TEXTURE_2D GL_TEXTURE_MIN_FILTER GL_LINEAR,
          Call.glTexParameteri GL_TEXTURE_2D GL_TEXTURE_MAG_FILTER GL_LINEAR], ?_, ?_, ?_⟩
        · simp [Call.loadedFile]
        · simp
        · simp [Loader.CreateGLTexture, Loader.succeeds, himg, SceneManager.CreateGLTexture,
            State.emit, h3, h4]

/-- A list of loads on a state with room for all of them: every file is
asked for, in order; the registry grows by the entries of the loads that
succeed, in order; no texture unit is activated. -/
theorem Loader.loadAll_spec (env : Loader) (loads : List (String × String)) :
    ∀ s : State ℚ, s.m_loadedTextures + loads.length ≤ s.m_textureIDs.length →
    ∃ (s1 : State ℚ) (tr : List (Call ℚ)),
      env.loadAll loads (some s) = some s1 ∧
      s1.m_pShaderManager = s.m_pShaderManager ∧
      s1.m_objectMaterials = s.m_objectMaterials ∧
      s1.m_textureIDs.length = s.m_textureIDs.length ∧
      s1.m_loadedTextures
        = s.m_loadedTextures + (loads.filter fun p => env.succeeds p.1).length ∧
      s1.registry = s.registry
        ++ (loads.filter fun p => env.succeeds p.1).map
            (fun p => (⟨p.2, env.glGenTextures p.1⟩ : TEXTURE_INFO)) ∧
      s1.trace = s.trace ++ tr ∧
      tr.filterMap Call.loadedFile = loads.map Prod.fst ∧
      ∀ u, Call.glActiveTexture u ∉ tr := by
  induction loads with
  | nil =>
    intro s _
    exact ⟨s, [], rfl, rfl, rfl, rfl, by simp, by simp, by simp, by simp, by simp⟩
  | cons p rest ih =>
    intro s hroom
    obtain ⟨filename, tag⟩ := p
    have hlt : s.m_loadedTextures < s.m_textureIDs.length := by
      simp only [List.length_cons] at hroom; omega
    obtain ⟨tr, hfile, hact, hstep⟩ := Loader.CreateGLTexture_step env filename tag s hlt
    by_cases hs : env.succeeds filename = true
    · rw [if_pos hs] at hstep
      obtain ⟨s1, tr1, h1, h2, h3, h4, h5, h6, h7, h8, h9⟩ := ih
        { s with
          m_textureIDs := s.m_textureIDs.set s.m_loadedTextures
            ⟨tag, env.glGenTextures filename⟩
          m_loadedTextures := s.m_loadedTextures + 1
          trace := s.trace ++ tr }
        (by simp only [List.length_cons, List.length_set] at hroom ⊢; omega)
      refine ⟨s1, tr ++ tr1, ?_, h2, h3, ?_, ?_, ?_, ?_, ?_, ?_⟩
      · simp only [Loader.loadAll, hstep]; exact h1
      · rw [h4]; simp
      · rw [h5]; simp [hs]; omega
      · rw [h6]
        simp only [State.registry]
        rw [take_set_succ s.m_textureIDs s.m_loadedTextures _ hlt]
        simp [hs]
      · rw [h7]; simp
      · simp [List.filterMap_append, hfile, h8]
      · intro u hu
        rcases List.mem_append.mp hu with h | h
        · exact hact u h
        · exact h9 u h
    · rw [if_neg hs] at hstep
      obtain ⟨s1, tr1, h1, h2, h3, h4, h5, h6, h7, h8, h9⟩ := ih
        { s with trace := s.trace ++ tr }
        (by simp only [List.length_cons] at hroom ⊢; omega)
      refine ⟨s1, tr ++ tr1, ?_, h2, h3, h4, ?_, ?_, ?_, ?_, ?_⟩
      · simp only [Loader.loadAll, hstep]; exact h1
      · rw [h5]; simp [hs]
      · rw [h6]; simp [hs, State.registry]
      · rw [h7]; simp
      · simp [List.filterMap_append, hfile, h8]
      · intro u hu
        rcases List.mem_append.mp hu with h | h
        · exact hact u h
        · exact h9 u h

/-- The statements of `PrepareScene` before the first load: materials, lights
and meshes.  They ask for no file and activate no texture unit, and leave the
texture array and count as they are. -/
theorem PrepareScene_eq (env : Loader) (uninit : String → OBJECT_MATERIAL ℚ) (s : State ℚ)
    (hptr : s.m_pShaderManager = true) :
    ∃ (s0 : State ℚ) (pre : List (Call ℚ)),
      PrepareScene env uninit s = (env.loadAll sceneTextures (some s0)).bind BindGLTextures ∧
      s0.m_pShaderManager = true ∧
      s0.m_textureIDs = s.m_textureIDs ∧ s0.m_loadedTextures = s.m_loadedTextures ∧
      s0.trace = s.trace ++ pre ∧
      pre.filterMap Call.loadedFile = [] ∧
      ∀ u, Call.glActiveTexture u ∉ pre := by
  have hptr2 : (DefineObjectMaterials uninit s).m_pShaderManager = true := hptr
  refine ⟨{ DefineObjectMaterials uninit s with
      trace := s.trace ++
        ((match SetupSceneLights { s with trace := [] } with
          | some x => x.trace
          | none => []) ++
        [Call.LoadMesh Mesh.Box, Call.LoadMesh Mesh.Plane,
        Call.LoadMesh Mesh.Cylinder, Call.LoadMesh Mesh.Cone, Call.LoadMesh Mesh.Prism,
        Call.LoadMesh Mesh.Pyramid4, Call.LoadMesh Mesh.Sphere,
        Call.LoadMesh Mesh.TaperedCylinder, Call.LoadMesh Mesh.Torus]) }, _, ?_, hptr, rfl,
      rfl, rfl, ?_, ?_⟩
  · simp only [PrepareScene, SetupSceneLights, hptr2, hptr, if_true, Option.map_some',
      State.emit, sceneTextures, Loader.loadAll, List.nil_append, List.append_assoc]
    rfl
  · simp [SetupSceneLights, hptr, State.emit, Call.loadedFile]
  · simp [SetupSceneLights, hptr, State.emit]

/-- C17: with a shader manager present and room for twelve more textures in
the array, `PrepareScene` runs to the end whatever the outcome of each load.
It asks the decoder for the twelve files in source order; the registry then
holds the earlier entries followed by one entry per load that succeeded, in
source order, so a failed load takes no slot; on a scene manager with no
texture loaded the registered tags are exactly the tags of the loads that
succeeded.  No texture unit is activated before the last load; after it
`BindGLTextures` runs once, on the final registry. -/
theorem C17_PrepareScene_tolerates_failures (env : Loader)
    (uninit : String → OBJECT_MATERIAL ℚ) (s : State ℚ) (hptr : s.m_pShaderManager = true)
    (hroom : s.m_loadedTextures + 12 ≤ s.m_textureIDs.length) :
    ∃ (s1 s' : State ℚ) (tr : List (Call ℚ)),
      PrepareScene env uninit s = some s' ∧
      s1.trace = s.trace ++ tr ∧
      tr.filterMap Call.loadedFile
        = ["textures/rusticwood.jpg", "textures/amber.jpg", "textures/glass.jpg",
           "textures/foam2.jpg", "textures/insideLemon.jpg", "textures/lemonSkin2.jpg",
           "textures/bubbles.png", "textures/field.jpg", "textures/bottleglass.jpg",
           "textures/stainless.jpg", "textures/knife_handle.jpg",
           "textures/stainless_end.jpg"] ∧
      (∀ u, Call.glActiveTexture u ∉ tr) ∧
      s1.registry = s.registry
        ++ (sceneTextures.filter fun p => env.succeeds p.1).map
            (fun p => (⟨p.2, env.glGenTextures p.1⟩ : TEXTURE_INFO)) ∧
      BindGLTextures s1 = some s' ∧
      s'.registry = s1.registry ∧
      s'.trace = s1.trace ++ s1.registry.enum.flatMap (fun p =>
        [Call.glActiveTexture (GL_TEXTURE0 + p.1),
         Call.glBindTexture GL_TEXTURE_2D p.2.ID]) ∧
      (s.m_loadedTextures = 0 →
        s'.registry.map (fun e => e.tag)
          = (sceneTextures.filter fun p => env.succeeds p.1).map Prod.snd) := by
  obtain ⟨s0, pre, hP, hp0, hids0, hn0, htr0, hpre1, hpre2⟩ := PrepareScene_eq env uninit s hptr
  obtain ⟨s1, tr1, h1, _, _, h4, h5, h6, h7, h8, h9⟩ := Loader.loadAll_spec env sceneTextures s0
    (by rw [hids0, hn0]; exact hroom)
  have hwf1 : s1.WellFormed := by
    have hle : (sceneTextures.filter fun p => env.succeeds p.1).length ≤ 12 :=
      List.length_filter_le _ _
    show s1.m_loadedTextures ≤ s1.m_textureIDs.length
    rw [h5, h4, hids0, hn0]
    omega
  have hreg0 : s0.registry = s.registry := by
    simp only [State.registry, hids0, hn0]
  have hbind := BindGLTextures_eq s1 hwf1
  refine ⟨s1, _, pre ++ tr1, ?_, ?_, ?_, ?_, ?_, hbind, rfl, rfl, ?_⟩
  · rw [hP, h1, Option.some_bind, hbind]
  · rw [h7, htr0, List.append_assoc]
  · rw [List.filterMap_append, hpre1, h8]
    rfl
  · intro u hu
    rcases List.mem_append.mp hu with h | h
    · exact hpre2 u h
    · exact h9 u h
  · rw [h6, hreg0]
  · intro hzero
    show s1.registry.map (fun e => e.tag) = _
    rw [h6, hreg0]
    simp [State.registry, hzero, List.map_map, Function.comp_def]

/-- C17 on a fresh scene manager with a 16-entry array, for a run in which two
of the twelve loads fail. -/
theorem C17_PrepareScene_tolerates_failures_witness :
    ∃ (s1 s' : State ℚ) (tr : List (Call ℚ)),
      PrepareScene sampleLoader zeroLocals (construct ℚ true 16) = some s' ∧
      s1.trace = (construct ℚ true 16).trace ++ tr ∧
      tr.filterMap Call.loadedFile
        = ["textures/rusticwood.jpg", "textures/amber.jpg", "textures/glass.jpg",
           "textures/foam2.jpg", "textures/insideLemon.jpg", "textures/lemonSkin2.jpg",
           "textures/bubbles.png", "textures/field.jpg", "textures/bottleglass.jpg",
           "textures/stainless.jpg", "textures/knife_handle.jpg",
           "textures/stainless_end.jpg"] ∧
      (∀ u, Call.glActiveTexture u ∉ tr) ∧
      s1.registry = (construct ℚ true 16).registry
        ++ (sceneTextures.filter fun p => sampleLoader.succeeds p.1).map
            (fun p => (⟨p.2, sampleLoader.glGenTextures p.1⟩ : TEXTURE_INFO)) ∧
      BindGLTextures s1 = some s' ∧
      s'.registry = s1.registry ∧
      s'.trace = s1.trace ++ s1.registry.enum.flatMap (fun p =>
        [Call.glActiveTexture (GL_TEXTURE0 + p.1),
         Call.glBindTexture GL_TEXTURE_2D p.2.ID]) ∧
      ((construct ℚ true 16).m_loadedTextures = 0 →
        s'.registry.map (fun e => e.tag)
          = (sceneTextures.filter fun p => sampleLoader.succeeds p.1).map Prod.snd) :=
  C17_PrepareScene_tolerates_failures sampleLoader zeroLocals (construct ℚ true 16) rfl
    (by simp [construct])

/-- The loads of the sample run that succeed: all but "beerBody" (not
decodable) and "clearglass" (one channel). -/
theorem sampleLoader_succeeded :
    (sceneTextures.filter fun p => sampleLoader.succeeds p.1).map Prod.snd
      = ["table", "beerFoam", "inLemon", "outLemon", "bubbles", "backdrop", "bottleglass",
         "stainless", "knifeHandle", "metalScrew"] := by
  simp [sceneTextures, sampleLoader, Loader.succeeds, List.filter]

/-! ### The call sequence of `RenderScene` -/

/-- C18 as stated fails: the beer-body draw of `RenderBeerGlass` (the fourth
draw of `RenderScene`) is preceded, since the draw before it, by no
`SetShaderMaterial` call, and the bubbles draw after it by no
`SetTransformations` call. -/
theorem C18_draws_reusing_state_counterexample :
    (drawSegments RenderScene)[3]?
      = some [.SetTransformations ⟨1.5, 5.625, 1.5⟩ 180.0 0.0 0.0 ⟨0.0, 6.25, 0.0⟩,
          .SetShaderTexture "beerBody", .SetTextureUVScale 1.0 1.0] ∧
    (drawSegments RenderScene)[4]?
      = some [.SetShaderTexture "bubbles", .SetTextureUVScale 1.0 1.0,
          .SetShaderMaterial "beer"] ∧
    ¬ (∀ seg ∈ drawSegments RenderScene, setsAllThree seg = true) := by
  refine ⟨rfl, rfl, ?_⟩
  decide

/-- C18, amended: `RenderScene` issues 27 mesh draws.  Every one of them is
preceded, within the same `RenderScene` call, by a `SetTransformations` call, a
`SetShaderColor` or `SetShaderTexture` call and a `SetShaderMaterial` call, and,
since the previous draw, by a `SetTransformations` or a `SetShaderTexture`
call.  Eighteen draws are preceded by all three kinds of call since the
previous draw; the other nine (draws 4, 5, 7, 18 and 20 to 24, counted from 1)
use a transform, a texture or a material set for an earlier draw. -/
theorem C18_draws_set_or_reuse_state :
    (drawSegments RenderScene).length = 27 ∧
    (∀ p ∈ drawPrefixes RenderScene, setsAllThree p = true) ∧
    (∀ seg ∈ drawSegments RenderScene,
      (seg.any Stmt.isSetTransformations || seg.any Stmt.isSetShaderTexture) = true) ∧
    (drawSegments RenderScene).map setsAllThree
      = [true, true,
         true, false, false, true, false, true,
         true, true, true, true, true, true,
         true, true,
         true, false, true, false, false, false, false, false,
         true, true, true] := by
  refine ⟨by decide, by decide, by decide, by decide⟩

/-- C19 as stated fails: whatever the blend setting before `RenderScene`, the
first draw (the table) is issued with blending enabled and the second (the
backdrop) with blending disabled, and the six blended beer-glass draws are
followed by nineteen draws with blending disabled. -/
theorem C19_opaque_after_blended_counterexample :
    blendAtDraws false RenderScene
      = [true, false, true, true, true, true, true, true,
         false, false, false, false, false, false, false, false, false, false,
         false, false, false, false, false, false, false, false, false] ∧
    blendAtDraws true RenderScene = blendAtDraws false RenderScene ∧
    opaqueAfterBlended (blendAtDraws false RenderScene) = true ∧
    opaqueAfterBlended (blendAtDraws true RenderScene) = true := by
  refine ⟨by decide, by decide, by decide, by decide⟩

/-- C19, amended: in the draw sequence of one `RenderScene` call, whatever the
blend setting before it, the draws issued with blending enabled are the table
(draw 1) and the six draws of the beer glass (draws 3 to 8); the backdrop
(draw 2) and the nineteen draws of bottle, plate, lemons and knife (draws 9 to
27) are issued with blending disabled, after blended draws.  Blending is
disabled when `RenderScene` returns. -/
theorem C19_blended_draws (blend : Bool) :
    blendAtDraws blend RenderScene
      = [true, false, true, true, true, true, true, true,
         false, false, false, false, false, false, false, false, false, false,
         false, false, false, false, false, false, false, false, false] ∧
    blendAtDraws blend RenderTable = [true] ∧
    blendAtDraws false RenderBackdrop = [false] ∧
    blendAtDraws false RenderBeerGlass = [true, true, true, true, true, true] ∧
    blendAtDraws false
        (RenderBeerBottle ++ RenderPlate ++ RenderLemon ++ RenderKnife)
      = List.replicate 19 false ∧
    blendAfter blend RenderTable = false ∧
    blendAfter blend RenderScene = false := by
  cases blend <;> refine ⟨by decide, by decide, by decide, by decide, by decide, by decide,
    by decide⟩

/-! ### The sampler index and the bound unit -/

/-- The calls `BindGLTextures` makes for entry `i` sit at positions `2 * i` and
`2 * i + 1` of its call sequence. -/
theorem enumFrom_bindings_index (reg : List TEXTURE_INFO) :
    ∀ (k i : Nat) (e : TEXTURE_INFO), reg[i]? = some e →
    ((List.enumFrom k reg).flatMap fun p =>
        [(Call.glActiveTexture (GL_TEXTURE0 + p.1) : Call R),
         Call.glBindTexture GL_TEXTURE_2D p.2.ID])[2 * i]?
      = some (Call.glActiveTexture (GL_TEXTURE0 + (k + i))) ∧
    ((List.enumFrom k reg).flatMap fun p =>
        [(Call.glActiveTexture (GL_TEXTURE0 + p.1) : Call R),
         Call.glBindTexture GL_TEXTURE_2D p.2.ID])[2 * i + 1]?
      = some (Call.glBindTexture GL_TEXTURE_2D e.ID) := by
  induction reg with
  | nil => intro k i e h; simp at h
  | cons x xs ih =>
    intro k i e h
    cases i with
    | zero =>
      simp only [List.getElem?_cons_zero, Option.some.injEq] at h
      subst h
      simp [List.enumFrom_cons, List.flatMap_cons]
    | succ i =>
      simp only [List.getElem?_cons_succ] at h
      obtain ⟨h1, h2⟩ := ih (k + 1) i e h
      have e1 : 2 * (i + 1) = 2 * i + 1 + 1 := by omega
      have e2 : 2 * (i + 1) + 1 = 2 * i + 1 + 1 + 1 := by omega
      have e3 : k + (i + 1) = k + 1 + i := by omega
      constructor
      · rw [e1, e3, List.enumFrom_cons, List.flatMap_cons]
        simpa using h1
      · rw [e2, List.enumFrom_cons, List.flatMap_cons]
        simpa using h2

/-- A unit is activated at one position only of the call sequence of
`BindGLTextures`. -/
theorem enumFrom_bindings_unique (reg : List TEXTURE_INFO) :
    ∀ (k m u : Nat),
    ((List.enumFrom k reg).flatMap fun p =>
        [(Call.glActiveTexture (GL_TEXTURE0 + p.1) : Call R),
         Call.glBindTexture GL_TEXTURE_2D p.2.ID])[m]?
      = some (Call.glActiveTexture (GL_TEXTURE0 + u)) →
    k ≤ u ∧ m = 2 * (u - k) := by
  induction reg with
  | nil => intro k m u h; simp at h
  | cons x xs ih =>
    intro k m u h
    rw [List.enumFrom_cons, List.flatMap_cons] at h
    match m, h with
    | 0, h =>
      simp at h
      omega
    | 1, h => simp at h
    | m + 2, h =>
      have h2 : ((List.enumFrom (k + 1) xs).flatMap fun p =>
          [(Call.glActiveTexture (GL_TEXTURE0 + p.1) : Call R),
           Call.glBindTexture GL_TEXTURE_2D p.2.ID])[m]?
          = some (Call.glActiveTexture (GL_TEXTURE0 + u)) := by
        simpa using h
      obtain ⟨hle, hm⟩ := ih (k + 1) m u h2
      omega

/-- C21 as stated fails for texture names of 2^31 and more: with "table"
registered first, under the name 2147483648, `SetShaderTexture("table")`
passes sampler index 0 and `BindGLTextures` binds unit 0 to the name
2147483648, but `FindTextureID("table")` returns -2147483648, a value that is
the name of no texture `BindGLTextures` binds. -/
theorem C21_high_texture_name_counterexample :
    highState.m_pShaderManager = true ∧ highState.WellFormed ∧
    (∃ e ∈ highState.registry, e.tag = "table") ∧
    SetShaderTexture "table" highState
      = some { highState with
          trace := highState.trace ++ [Call.setIntValue "bUseTexture" 1,
            Call.setSampler2DValue "objectTexture" 0] } ∧
    BindGLTextures highState
      = some { highState with
          trace := highState.trace ++ bindingCalls ℚ highState.registry } ∧
    bindingCalls ℚ highState.registry
      = [Call.glActiveTexture (GL_TEXTURE0 + 0), Call.glBindTexture GL_TEXTURE_2D 2147483648,
         Call.glActiveTexture (GL_TEXTURE0 + 1), Call.glBindTexture GL_TEXTURE_2D 4294967295] ∧
    FindTextureID highState "table" = some (-2147483648) ∧
    (∀ n : Nat, Call.glBindTexture GL_TEXTURE_2D n ∈ bindingCalls ℚ highState.registry →
      FindTextureID highState "table" ≠ some (n : Int)) := by
  have hid : FindTextureID highState "table" = some (-2147483648) := by
    simp [FindTextureID, FindTextureID.loop, highState, toInt32]
  have hslot : FindTextureSlot highState "table" = some ((0 : Nat) : Int) := by
    simp [FindTextureSlot, FindTextureSlot.loop, highState]
  refine ⟨rfl, by decide, ⟨⟨"table", 2147483648⟩, by simp [State.registry, highState], rfl⟩,
    SetShaderTexture_eq highState "table" _ rfl hslot, BindGLTextures_eq highState (by decide),
    ?_, hid, ?_⟩
  · simp [bindingCalls, State.registry, highState, List.enum, List.enumFrom]
  · intro n _ h
    rw [hid] at h
    have h2 : (-2147483648 : Int) = (n : Int) := Option.some.inj h
    omega

/-- C21, amended: with a shader manager present, on a well-formed scene
manager, for a tag carried by a registered texture (once or several times):
the sampler index that `SetShaderTexture(tag)` passes to "objectTexture" is
the index `j` of the first registry entry with that tag; in the call sequence
of `BindGLTextures` unit `GL_TEXTURE0 + j` is activated once, at position
`2 * j`, and the call that follows binds to it the texture name stored in that
entry.  `FindTextureID(tag)` returns that name converted to `int`: the name
itself when it is below 2^31, and the name minus 2^32 when it is 2^31 or
more. -/
theorem C21_sampler_index_is_bound_unit (s : State R) (tag : String)
    (hptr : s.m_pShaderManager = true) (hwf : s.WellFormed)
    (h : ∃ e ∈ s.registry, e.tag = tag) :
    ∃ (j : Nat) (e : TEXTURE_INFO),
      j < s.m_loadedTextures ∧ s.registry[j]? = some e ∧ e.tag = tag ∧
      (∀ k, k < j → ∃ x, s.registry[k]? = some x ∧ x.tag ≠ tag) ∧
      SetShaderTexture tag s
        = some { s with
            trace := s.trace ++ [Call.setIntValue "bUseTexture" 1,
              Call.setSampler2DValue "objectTexture" (j : Int)] } ∧
      BindGLTextures s = some { s with trace := s.trace ++ bindingCalls R s.registry } ∧
      (bindingCalls R s.registry)[2 * j]? = some (Call.glActiveTexture (GL_TEXTURE0 + j)) ∧
      (bindingCalls R s.registry)[2 * j + 1]?
        = some (Call.glBindTexture GL_TEXTURE_2D e.ID) ∧
      (∀ m, (bindingCalls R s.registry)[m]? = some (Call.glActiveTexture (GL_TEXTURE0 + j)) →
        m = 2 * j) ∧
      FindTextureID s tag = some (toInt32 e.ID) ∧
      (e.ID < 2 ^ 31 → FindTextureID s tag = some (e.ID : Int)) ∧
      (2 ^ 31 ≤ e.ID → e.ID < 2 ^ 32 →
        FindTextureID s tag = some ((e.ID : Int) - 2 ^ 32)) := by
  obtain ⟨j, e, hj, he, ht, hmin⟩ := first_occurrence s.m_textureIDs s.m_loadedTextures tag h
  have hreg : s.registry[j]? = some e := by
    simp only [State.registry]
    rw [List.getElem?_take_of_lt hj]
    exact he
  have hmin2 : ∀ k, k < j → ∃ x, s.registry[k]? = some x ∧ x.tag ≠ tag := by
    intro k hk
    obtain ⟨x, hx, hxt⟩ := hmin k hk
    refine ⟨x, ?_, hxt⟩
    simp only [State.registry]
    rw [List.getElem?_take_of_lt (by omega)]
    exact hx
  have hslot := FindTextureSlot_loop_first s.m_textureIDs s.m_loadedTextures tag (-1) j e hj
    he ht hmin
  have hid := FindTextureID_loop_first s.m_textureIDs s.m_loadedTextures tag (-1) j e hj he
    ht hmin
  obtain ⟨h1, h2⟩ := enumFrom_bindings_index (R := R) s.registry 0 j e hreg
  refine ⟨j, e, hj, hreg, ht, hmin2, SetShaderTexture_eq s tag j hptr hslot,
    BindGLTextures_eq s hwf, ?_, h2, ?_, hid, ?_, ?_⟩
  · simpa [bindingCalls, List.enum] using h1
  · intro m hm
    have := (enumFrom_bindings_unique (R := R) s.registry 0 m j hm).2
    simpa using this
  · intro hsmall
    rw [← toInt32_small e.ID hsmall]
    exact hid
  · intro h1 h2
    rw [← toInt32_large e.ID h1 h2]
    exact hid

/-- C21 (amended) on a registry in which "table" occurs twice (entries 1 and
2): the sampler index is 1 and unit 1 is bound to texture name 1. -/
theorem C21_sampler_index_is_bound_unit_witness :
    ∃ (j : Nat) (e : TEXTURE_INFO),
      j < dupState.m_loadedTextures ∧ dupState.registry[j]? = some e ∧ e.tag = "table" ∧
      (∀ k, k < j → ∃ x, dupState.registry[k]? = some x ∧ x.tag ≠ "table") ∧
      SetShaderTexture "table" dupState
        = some { dupState with
            trace := dupState.trace ++ [Call.setIntValue "bUseTexture" 1,
              Call.setSampler2DValue "objectTexture" (j : Int)] } ∧
      BindGLTextures dupState
        = some { dupState with trace := dupState.trace ++ bindingCalls ℚ dupState.registry } ∧
      (bindingCalls ℚ dupState.registry)[2 * j]?
        = some (Call.glActiveTexture (GL_TEXTURE0 + j)) ∧
      (bindingCalls ℚ dupState.registry)[2 * j + 1]?
        = some (Call.glBindTexture GL_TEXTURE_2D e.ID) ∧
      (∀ m, (bindingCalls ℚ dupState.registry)[m]?
          = some (Call.glActiveTexture (GL_TEXTURE0 + j)) → m = 2 * j) ∧
      FindTextureID dupState "table" = some (toInt32 e.ID) ∧
      (e.ID < 2 ^ 31 → FindTextureID dupState "table" = some (e.ID : Int)) ∧
      (2 ^ 31 ≤ e.ID → e.ID < 2 ^ 32 →
        FindTextureID dupState "table" = some ((e.ID : Int) - 2 ^ 32)) :=
  C21_sampler_index_is_bound_unit dupState "table" rfl (by decide)
    ⟨⟨"table", 1⟩, by simp [State.registry, dupState], rfl⟩

/-- The lookups on the registry with "table" twice: slot 1, texture name 1. -/
theorem dupState_lookup :
    FindTextureSlot dupState "table" = some 1 ∧ FindTextureID dupState "table" = some 1 := by
  constructor
  · exact FindTextureSlot_loop_first dupState.m_textureIDs 3 "table" (-1) 1 ⟨"table", 1⟩
      (by decide) rfl rfl (by
        intro k hk
        have hk0 : k = 0 := by omega
        subst hk0
        exact ⟨⟨"beerBody", 2⟩, rfl, by decide⟩)
  · exact FindTextureID_loop_first dupState.m_textureIDs 3 "table" (-1) 1 ⟨"table", 1⟩
      (by decide) rfl rfl (by
        intro k hk
        have hk0 : k = 0 := by omega
        subst hk0
        exact ⟨⟨"beerBody", 2⟩, rfl, by decide⟩)

/-! ### The tags `RenderScene` refers to -/

/-- The tags `RenderScene` passes to `SetShaderTexture` and to
`SetShaderMaterial`, without repetition. -/
theorem RenderScene_tags :
    (textureTags RenderScene).dedup
      = ["table", "backdrop", "beerBody", "bubbles", "beerFoam", "bottleglass", "inLemon",
         "outLemon", "knifeHandle", "stainless", "metalScrew"] ∧
    (materialTags RenderScene).dedup
      = ["backdrop", "beer", "foam", "plate", "lemon", "wood", "metal", "glass"] := by
  constructor <;> decide

end theorems

end SceneManager
